import Mathlib

/-!
Verification of the Conversational Retrieval Orchestrator of the
`library_AI` repository (directory `ai_engine`), as specified in its
natural-language specification.  The Python sources are shallowly
embedded: pure string processing is translated to functions on
`List Char`, the three external ports (embedding model, vector store,
language model) become fields of an explicit environment record, and
stateful code (sessions, persisted session files, the semantic query
cache) is modelled by explicit state passing.  Machine reals
(similarity scores) are modelled by `ℚ`.

Unicode note: `rag_engine_new.remove_diacritics` uses NFD
normalisation plus removal of combining marks; `str.lower` lowercases
every Unicode character.  Both are embedded here as character maps
restricted to the Latin/Vietnamese alphabet actually used by the
application (26 ASCII letters plus the 67 precomposed Vietnamese
letters in both cases); other characters are left unchanged.
-/

namespace LibraryAI

/- The rational-number field operations are sealed by default; reopen
them so that concrete runs of the embedded program reduce. -/
attribute [local semireducible] Rat.mul Rat.add Rat.sub Rat.inv Rat.ofScientific

/-- Characters treated as whitespace by `str.strip`, `str.split` and the
regex class used by the source (modelled by the common ASCII whitespace). -/
def isSpaceChar (c : Char) : Bool :=
  c = ' ' || c = '\t' || c = '\n' || c = '\r' || c = '\x0b' || c = '\x0c'

/-- Python `str.lstrip()`. -/
def lstrip (l : List Char) : List Char := l.dropWhile isSpaceChar

/-- Python `str.rstrip()`. -/
def rstrip (l : List Char) : List Char := (l.reverse.dropWhile isSpaceChar).reverse

/-- Python `str.strip()`. -/
def strip (l : List Char) : List Char := rstrip (lstrip l)

/-- Uppercase/lowercase pairs handled by the embedded `str.lower`:
ASCII letters and precomposed Vietnamese letters. -/
def lowerPairs : List (Char × Char) :=
  [('A','a'),('B','b'),('C','c'),('D','d'),('E','e'),('F','f'),('G','g'),
   ('H','h'),('I','i'),('J','j'),('K','k'),('L','l'),('M','m'),('N','n'),
   ('O','o'),('P','p'),('Q','q'),('R','r'),('S','s'),('T','t'),('U','u'),
   ('V','v'),('W','w'),('X','x'),('Y','y'),('Z','z'),
   ('À','à'),('Á','á'),('Ạ','ạ'),('Ả','ả'),('Ã','ã'),
   ('Â','â'),('Ầ','ầ'),('Ấ','ấ'),('Ậ','ậ'),('Ẩ','ẩ'),('Ẫ','ẫ'),
   ('Ă','ă'),('Ằ','ằ'),('Ắ','ắ'),('Ặ','ặ'),('Ẳ','ẳ'),('Ẵ','ẵ'),
   ('È','è'),('É','é'),('Ẹ','ẹ'),('Ẻ','ẻ'),('Ẽ','ẽ'),
   ('Ê','ê'),('Ề','ề'),('Ế','ế'),('Ệ','ệ'),('Ể','ể'),('Ễ','ễ'),
   ('Ì','ì'),('Í','í'),('Ị','ị'),('Ỉ','ỉ'),('Ĩ','ĩ'),
   ('Ò','ò'),('Ó','ó'),('Ọ','ọ'),('Ỏ','ỏ'),('Õ','õ'),
   ('Ô','ô'),('Ồ','ồ'),('Ố','ố'),('Ộ','ộ'),('Ổ','ổ'),('Ỗ','ỗ'),
   ('Ơ','ơ'),('Ờ','ờ'),('Ớ','ớ'),('Ợ','ợ'),('Ở','ở'),('Ỡ','ỡ'),
   ('Ù','ù'),('Ú','ú'),('Ụ','ụ'),('Ủ','ủ'),('Ũ','ũ'),
   ('Ư','ư'),('Ừ','ừ'),('Ứ','ứ'),('Ự','ự'),('Ử','ử'),('Ữ','ữ'),
   ('Ỳ','ỳ'),('Ý','ý'),('Ỵ','ỵ'),('Ỷ','ỷ'),('Ỹ','ỹ'),
   ('Đ','đ')]

/-- Embedded `str.lower` on one character. -/
def pyLowerChar (c : Char) : Char :=
  match lowerPairs.find? (fun p => p.1 == c) with
  | some p => p.2
  | none => c

/-- Embedded `str.lower`. -/
def pyLowerL (l : List Char) : List Char := l.map pyLowerChar

/-- Precomposed Vietnamese letters paired with their base letter: the
effect of NFD normalisation followed by removal of combining marks,
together with the explicit `đ`/`Đ` replacement done by
`remove_diacritics`. -/
def diacriticPairs : List (Char × Char) :=
  [('à','a'),('á','a'),('ạ','a'),('ả','a'),('ã','a'),
   ('â','a'),('ầ','a'),('ấ','a'),('ậ','a'),('ẩ','a'),('ẫ','a'),
   ('ă','a'),('ằ','a'),('ắ','a'),('ặ','a'),('ẳ','a'),('ẵ','a'),
   ('è','e'),('é','e'),('ẹ','e'),('ẻ','e'),('ẽ','e'),
   ('ê','e'),('ề','e'),('ế','e'),('ệ','e'),('ể','e'),('ễ','e'),
   ('ì','i'),('í','i'),('ị','i'),('ỉ','i'),('ĩ','i'),
   ('ò','o'),('ó','o'),('ọ','o'),('ỏ','o'),('õ','o'),
   ('ô','o'),('ồ','o'),('ố','o'),('ộ','o'),('ổ','o'),('ỗ','o'),
   ('ơ','o'),('ờ','o'),('ớ','o'),('ợ','o'),('ở','o'),('ỡ','o'),
   ('ù','u'),('ú','u'),('ụ','u'),('ủ','u'),('ũ','u'),
   ('ư','u'),('ừ','u'),('ứ','u'),('ự','u'),('ử','u'),('ữ','u'),
   ('ỳ','y'),('ý','y'),('ỵ','y'),('ỷ','y'),('ỹ','y'),
   ('đ','d'),
   ('À','A'),('Á','A'),('Ạ','A'),('Ả','A'),('Ã','A'),
   ('Â','A'),('Ầ','A'),('Ấ','A'),('Ậ','A'),('Ẩ','A'),('Ẫ','A'),
   ('Ă','A'),('Ằ','A'),('Ắ','A'),('Ặ','A'),('Ẳ','A'),('Ẵ','A'),
   ('È','E'),('É','E'),('Ẹ','E'),('Ẻ','E'),('Ẽ','E'),
   ('Ê','E'),('Ề','E'),('Ế','E'),('Ệ','E'),('Ể','E'),('Ễ','E'),
   ('Ì','I'),('Í','I'),('Ị','I'),('Ỉ','I'),('Ĩ','I'),
   ('Ò','O'),('Ó','O'),('Ọ','O'),('Ỏ','O'),('Õ','O'),
   ('Ô','O'),('Ồ','O'),('Ố','O'),('Ộ','O'),('Ổ','O'),('Ỗ','O'),
   ('Ơ','O'),('Ờ','O'),('Ớ','O'),('Ợ','O'),('Ở','O'),('Ỡ','O'),
   ('Ù','U'),('Ú','U'),('Ụ','U'),('Ủ','U'),('Ũ','U'),
   ('Ư','U'),('Ừ','U'),('Ứ','U'),('Ự','U'),('Ử','U'),('Ữ','U'),
   ('Ỳ','Y'),('Ý','Y'),('Ỵ','Y'),('Ỷ','Y'),('Ỹ','Y'),
   ('Đ','D')]

/-- Embedded `remove_diacritics` on one character. -/
def stripDiacriticChar (c : Char) : Char :=
  match diacriticPairs.find? (fun p => p.1 == c) with
  | some p => p.2
  | none => c

/-- Embedded `remove_diacritics` (rag_engine_new.py lines 21-32). -/
def remove_diacritics_l (l : List Char) : List Char := l.map stripDiacriticChar

/-- Python substring test `needle in hay` for strings. -/
def hasSub (hay needle : List Char) : Bool :=
  hay.tails.any (fun t => needle.isPrefixOf t)

/-- Semantics of a `re.search` of the form `p1.*p2`: an occurrence of
`p1` followed (disjointly) by an occurrence of `p2`. -/
def seqSub (hay p1 p2 : List Char) : Bool :=
  hay.tails.any (fun t => p1.isPrefixOf t && hasSub (t.drop p1.length) p2)

/-- Python `re.sub(r"[?.!,;:]", "", q)`. -/
def removePunct (l : List Char) : List Char :=
  l.filter (fun c => !(c = '?' || c = '.' || c = '!' || c = ',' || c = ';' || c = ':'))

theorem dropWhile_length_le (p : Char → Bool) (l : List Char) :
    (l.dropWhile p).length ≤ l.length := by
  induction l with
  | nil => simp
  | cons c rest ih =>
    by_cases h : p c
    · rw [List.dropWhile_cons_of_pos h]
      exact Nat.le_trans ih (by simp)
    · rw [List.dropWhile_cons_of_neg h]

/-- Python `str.split()` with no separator: maximal non-whitespace
runs (fuel-indexed worker; the fuel strictly dominates the input
length at every call, so the `0, _ :: _` row is never reached). -/
def pySplitGo : Nat → List Char → List (List Char)
  | _, [] => []
  | 0, _ :: _ => []
  | fuel + 1, c :: rest =>
    if isSpaceChar c then pySplitGo fuel rest
    else (c :: rest.takeWhile (fun x => !isSpaceChar x)) ::
         pySplitGo fuel (rest.dropWhile (fun x => !isSpaceChar x))

/-- Python `str.split()` with no separator: maximal non-whitespace runs. -/
def pySplit (l : List Char) : List (List Char) := pySplitGo l.length l

/-- Python `str.replace(pat, rep)` (left to right, non-overlapping),
fuel-indexed worker; the source only ever replaces non-empty patterns,
which the guard makes explicit. -/
def replaceSubGo (pat rep : List Char) : Nat → List Char → List Char
  | _, [] => []
  | 0, l => l
  | fuel + 1, c :: rest =>
    if pat ≠ [] && pat.isPrefixOf (c :: rest) then
      rep ++ replaceSubGo pat rep fuel ((c :: rest).drop pat.length)
    else
      c :: replaceSubGo pat rep fuel rest

/-- Python `str.replace(pat, rep)` (left to right, non-overlapping). -/
def replaceSub (pat rep : List Char) (l : List Char) : List Char :=
  replaceSubGo pat rep l.length l

/-- Python `re.sub(r"\s+", " ", q)`: collapse whitespace runs to one
space (fuel-indexed worker). -/
def collapseWsGo : Nat → List Char → List Char
  | _, [] => []
  | 0, l => l
  | fuel + 1, c :: rest =>
    if isSpaceChar c then ' ' :: collapseWsGo fuel (rest.dropWhile isSpaceChar)
    else c :: collapseWsGo fuel rest

/-- Python `re.sub(r"\s+", " ", q)`: collapse whitespace runs to one space. -/
def collapseWs (l : List Char) : List Char := collapseWsGo l.length l

/-- Sequential `str.replace` calls, one per pair, as done by the
normalisation loops of `_normalize_query`. -/
def apply_replacements (prs : List (String × String)) (l : List Char) : List Char :=
  prs.foldl (fun acc p => replaceSub p.1.data p.2.data acc) l

/-- Embedded `str.lower` at `String` level. -/
def pyLowerS (s : String) : String := ⟨pyLowerL s.data⟩

/-- Embedded `remove_diacritics` at `String` level. -/
def remove_diacritics (s : String) : String := ⟨remove_diacritics_l s.data⟩

/-- Value of a run of decimal digits, as produced by `int(...)` on a
captured digit group. -/
def natOfDigits (l : List Char) : Nat :=
  l.foldl (fun n c => n * 10 + (c.toNat - 48)) 0

/-- Truthiness of `d.get(key)` for a string-valued optional entry:
false for a missing key and for the empty string. -/
def strTruthy (o : Option String) : Bool :=
  match o with
  | none => false
  | some s => !s.isEmpty

/-!  Configuration constants from `config/rag_config.py`. -/

/-- `rag_config.DEFAULT_TOP_K`. -/
def DEFAULT_TOP_K : Nat := 5

/-- `rag_config.SCORE_THRESHOLD`. -/
def SCORE_THRESHOLD : ℚ := 80 / 100

/-- `rag_config.MIN_QUERY_LENGTH`.  Imported by `rag_engine_new.py` but,
notably, not used by `classify_intent`, whose garbage check hardcodes 2. -/
def MIN_QUERY_LENGTH : Nat := 3

/-- `rag_config.QUERY_CACHE_THRESHOLD` (set to 2.0 in the source, with a
comment that this disables cache hits). -/
def QUERY_CACHE_THRESHOLD : ℚ := 2

/-- `rag_config.SEARCH_EXPAND_FACTOR`. -/
def SEARCH_EXPAND_FACTOR : Nat := 2

/-- `Settings.CRAWL_TOPICS` from `config/settings.py`. -/
def CRAWL_TOPICS : List String :=
  ["Lập trình Python", "Khoa học máy tính", "Công nghệ thông tin",
   "Trí tuệ nhân tạo", "Machine Learning", "Khoa học dữ liệu",
   "An toàn thông tin", "Mạng máy tính",
   "Toán học", "Vật lý",
   "Kinh tế học", "Quản trị kinh doanh", "Marketing",
   "Kỹ năng mềm", "Tâm lý học", "Phát triển bản thân",
   "Văn học Việt Nam", "Nguyễn Nhật Ánh", "Lịch sử Việt Nam",
   "Python Programming", "Artificial Intelligence"]

/-!  Data model. -/

/-- Metadata record stored with each catalog item in the vector store
(the keys read by `_format_search_results` and `get_filters`; a missing
key is modelled by the empty string, matching `meta.get(k, "")`). -/
structure Meta where
  isbn : String
  title : String
  authors : String
  category : String
  publish_year : String
deriving DecidableEq

/-- One row of a vector-store query answer: ChromaDB returns parallel
arrays `ids`/`metadatas`/`documents`/`distances`; a row zips one index
of each.  `distance` is the cosine distance reported by the store. -/
structure CatalogRow where
  id : String
  meta : Meta
  document : String
  distance : ℚ
deriving DecidableEq

/-- Formatted search result, as produced by
`SearchEngine._format_search_results`. -/
structure Book where
  identifier : String
  title : String
  authors : String
  category : String
  publish_year : String
  score : ℚ
  richtext : String
deriving DecidableEq

/-- Filter set passed to `SearchEngine.search`: each key optional. -/
structure Filters where
  title : Option String := none
  authors : Option String := none
  category : Option String := none
  publish_year : Option String := none
deriving DecidableEq

/-- Truthiness of the Python `filters` argument (`None` or a dict;
an empty dict is falsy). -/
def filtersTruthy (f : Option Filters) : Bool :=
  match f with
  | none => false
  | some fs => fs.title.isSome || fs.authors.isSome || fs.category.isSome || fs.publish_year.isSome

/-- The in-process partial-match filters produced by
`SearchEngine._split_filters` (values already lowercased). -/
structure PyFilters where
  title : Option String := none
  authors : Option String := none
deriving DecidableEq

/-- Half-to-even integer rounding, the rounding mode of Python `round`.
The binary floating-point representation of the source is idealised
over `ℚ`. -/
def roundHalfEven (x : ℚ) : ℤ :=
  if x - ⌊x⌋ < 1 / 2 then ⌊x⌋
  else if 1 / 2 < x - ⌊x⌋ then ⌊x⌋ + 1
  else if 2 ∣ ⌊x⌋ then ⌊x⌋ else ⌊x⌋ + 1

/-- Python `round(x, 4)`. -/
def round4 (x : ℚ) : ℚ := (roundHalfEven (x * 10000) : ℚ) / 10000

/-!  The environment: the three external ports plus the process inputs
that the orchestrator consumes.  `ranked` abstracts the vector store's
nearest-neighbour ranking: for a query vector it yields the catalog
rows in the order the store would return them (with their distances);
a `query(vector, n, where)` call then filters by the predicate and
truncates to `n`.  A store/query failure, which `VectorDB` catches and
turns into `None`, is observationally an empty row list after
`_format_search_results` and is modelled as such. -/

/-- External ports and process-level inputs. -/
structure Env where
  embed : String → List ℚ
  ranked : List ℚ → List CatalogRow
  memNearest : List ℚ → Option (String × ℚ)
  llm : String → Except String (Option String)
  countResult : Except String Nat
  allMetadata : List Meta
  hashFn : String → Int
  now : ℚ

/-- `Embedder.embed_text` fails by returning `None` (caught internally),
and the spec treats an empty vector as the failure value; both are
falsy in the callers, so the failure case is modelled by `[]`. -/
def embedText (env : Env) (text : String) : List ℚ :=
  if text.isEmpty then [] else env.embed text

/-- One recorded call to an external port. -/
inductive PortCall
  | embedCall (text : String)
  | vectorQuery (n : Nat) (w : Option (List (String × String)))
  | cacheQuery
  | cacheStore (qid : String)
  | llmGenerate
  | countQuery
  | metadataScan
deriving DecidableEq

/-- ChromaDB `$eq` semantics for the four metadata fields the engine
filters on. -/
def metaField (m : Meta) (field : String) : String :=
  if field = "category" then m.category
  else if field = "publish_year" then m.publish_year
  else if field = "title" then m.title
  else if field = "authors" then m.authors
  else ""

/-- Evaluation of the where clause built by `_build_where_clause`: a
conjunction of `$eq` conditions (`None` matches everything).  The
single-condition and `$and` shapes of the source both evaluate to this
conjunction. -/
def matchesWhere (w : Option (List (String × String))) (m : Meta) : Bool :=
  match w with
  | none => true
  | some cs => cs.all (fun c => metaField m c.1 == c.2)

/-- `VectorDB.query_vectors`: nearest neighbours among the rows that
satisfy the metadata predicate, truncated to `n_results`. -/
def query_vectors (env : Env) (vec : List ℚ) (n : Nat)
    (w : Option (List (String × String))) : List CatalogRow :=
  ((env.ranked vec).filter (fun r => matchesWhere w r.meta)).take n

/-- `VectorDB.search_query_memory`: nearest cached question (if the
cache collection is non-empty), accepted when `1 - distance` reaches
the threshold. -/
def search_query_memory (env : Env) (vec : List ℚ) (threshold : ℚ) : Option String :=
  match env.memNearest vec with
  | none => none
  | some p => if threshold ≤ 1 - p.2 then some p.1 else none

/-- One entry of the `query_memory` collection. -/
structure QMemEntry where
  id : String
  question : String
  vector : List ℚ
  document : String
  qtype : String
  created_at : ℚ
deriving DecidableEq

/-- The id `f"q_{hash(query)}"` used by `add_query_memory`; the process
string hash is a parameter of the model. -/
def qmemId (hashFn : String → Int) (query : String) : String :=
  "q_" ++ toString (hashFn query)

/-- ChromaDB `upsert` on the query-memory collection: an existing id is
replaced in place, a new id is appended. -/
def qmemUpsert (mem : List QMemEntry) (e : QMemEntry) : List QMemEntry :=
  if mem.any (fun x => x.id == e.id) then
    mem.map (fun x => if x.id == e.id then e else x)
  else mem ++ [e]

/-- `VectorDB.add_query_memory` (vector_db.py lines 109-127). -/
def add_query_memory (hashFn : String → Int) (now : ℚ) (mem : List QMemEntry)
    (query : String) (vector : List ℚ) (answer : String) (qtype : String) : List QMemEntry :=
  qmemUpsert mem ⟨qmemId hashFn query, query, vector, answer, qtype, now⟩

/-!  `SearchEngine` (search_engine.py). -/

/-- `SearchEngine._split_filters` on a (truthy) filters dict. -/
def split_filters (fs : Filters) : List (String × String) × PyFilters :=
  let cf := (if strTruthy fs.category then [("category", fs.category.getD "")] else [])
         ++ (if strTruthy fs.publish_year then [("publish_year", fs.publish_year.getD "")] else [])
  let pf : PyFilters :=
    ⟨if strTruthy fs.title then some (pyLowerS (fs.title.getD "")) else none,
     if strTruthy fs.authors then some (pyLowerS (fs.authors.getD "")) else none⟩
  (cf, pf)

/-- The ChromaDB-side (exact-match) filters of a `filters` argument,
including the `if filters` truthiness guard of `search`. -/
def chroma_filters_of (filters : Option Filters) : List (String × String) :=
  match filters with
  | none => []
  | some fs => if filtersTruthy (some fs) then (split_filters fs).1 else []

/-- The in-process (partial-match) filters of a `filters` argument. -/
def python_filters_of (filters : Option Filters) : PyFilters :=
  match filters with
  | none => ⟨none, none⟩
  | some fs => if filtersTruthy (some fs) then (split_filters fs).2 else ⟨none, none⟩

/-- `SearchEngine._build_where_clause` over the exact-match filter dict:
equality conditions gathered in source order; `None` when empty.  The
source combines two or more conditions with `$and`, which evaluates to
the same conjunction (`matchesWhere`). -/
def build_where_clause (cf : List (String × String)) : Option (List (String × String)) :=
  let conds := ["category", "publish_year", "title", "authors"].filterMap
    (fun field => match cf.find? (fun c => c.1 == field) with
      | some c => if !c.2.isEmpty then some (field, c.2) else none
      | none => none)
  if conds = [] then none else some conds

/-- The where clause `search` sends to the vector store for a given
`filters` argument (`_build_where_clause(chromadb_filters) if
chromadb_filters else None`). -/
def where_of (filters : Option Filters) : Option (List (String × String)) :=
  let cf := chroma_filters_of filters
  if cf ≠ [] then build_where_clause cf else none

/-- Truthiness of the `python_filters` dict. -/
def pythonActive (pf : PyFilters) : Bool := pf.title.isSome || pf.authors.isSome

/-- `SearchEngine._format_search_results` on one row. -/
def mkBook (r : CatalogRow) : Book :=
  ⟨r.meta.isbn, r.meta.title, r.meta.authors, r.meta.category, r.meta.publish_year,
   round4 (1 - r.distance), r.document⟩

/-- `SearchEngine._format_search_results` (search_engine.py 352-382):
`score = round(1 - distance, 4)`. -/
def format_search_results (rows : List CatalogRow) : List Book :=
  rows.map mkBook

/-- Match of one book against the partial-match filters, exactly the
loop body of `_apply_python_filters`. -/
def pyFilterMatch (pf : PyFilters) (book : Book) : Bool :=
  (match pf.title with
   | some t => hasSub (pyLowerL book.title.data) t.data
   | none => true)
  && (match pf.authors with
      | some a => hasSub (pyLowerL book.authors.data) a.data
      | none => true)

/-- `SearchEngine._apply_python_filters`. -/
def apply_python_filters (results : List Book) (pf : PyFilters) : List Book :=
  results.filter (pyFilterMatch pf)

/-- `SearchEngine.search` (search_engine.py 24-104), with the port
calls it makes recorded in order. -/
def search (env : Env) (query : String) (filters : Option Filters) (top_k : Nat) :
    List Book × List PortCall :=
  if strip query.data = [] then ([], [])
  else
    let query_vector := embedText env query
    if query_vector = [] then ([], [PortCall.embedCall query])
    else
      let python_filters := python_filters_of filters
      let where_filter := where_of filters
      let query_limit :=
        if pythonActive python_filters then min (max (top_k * 10) (top_k * 3)) 1000 else top_k
      let results := query_vectors env query_vector query_limit where_filter
      let tr := [PortCall.embedCall query, PortCall.vectorQuery query_limit where_filter]
      let formatted := format_search_results results
      if pythonActive python_filters then
        let filtered := apply_python_filters formatted python_filters
        if filtered = [] then
          let broad_limit := min (max (top_k * 100) 500) 2000
          let broad := query_vectors env query_vector broad_limit where_filter
          let filtered2 := apply_python_filters (format_search_results broad) python_filters
          (filtered2.take top_k, tr ++ [PortCall.vectorQuery broad_limit where_filter])
        else (filtered.take top_k, tr)
      else (formatted.take top_k, tr)

/-!  `ChatSession` (rag_engine_new.py 129-179) and its file-backed
persistence.  The per-session JSON files are modelled by an
association list keyed by session id; `json.dump`/`json.load` of the
session record is modelled as the identity on the record. -/

/-- One history message (`{"role": ..., "text": ...}`). -/
structure Message where
  role : String
  text : String
deriving DecidableEq

/-- The record `ChatSession.save` writes to disk. -/
structure SessionData where
  history : List Message
  last_search_results : List Book
deriving DecidableEq

/-- In-memory `ChatSession`. -/
structure ChatSession where
  session_id : String
  history : List Message
  last_search_results : List Book
deriving DecidableEq

/-- Lookup in an association list (the directory of session files, or
the in-memory sessions dict). -/
def assocGet {α : Type} (m : List (String × α)) (k : String) : Option α :=
  (m.find? (fun p => p.1 == k)).map (fun p => p.2)

/-- Overwriting insert in an association list. -/
def assocSet {α : Type} (m : List (String × α)) (k : String) (v : α) : List (String × α) :=
  if m.any (fun p => p.1 == k) then
    m.map (fun p => if p.1 == k then (k, v) else p)
  else m ++ [(k, v)]

/-- `ChatSession.save`: write-through persistence of the full record;
a failed write is caught and logged, leaving the files unchanged
(`ok = false`). -/
def chat_session_save (ok : Bool) (files : List (String × SessionData))
    (s : ChatSession) : List (String × SessionData) :=
  if ok then assocSet files s.session_id ⟨s.history, s.last_search_results⟩ else files

/-- `ChatSession.load`: fill history and last results from the persisted
record when one exists, otherwise leave the fresh session unchanged. -/
def chat_session_load (files : List (String × SessionData)) (s : ChatSession) : ChatSession :=
  match assocGet files s.session_id with
  | some d => { s with history := d.history, last_search_results := d.last_search_results }
  | none => s

/-- `ChatSession.add_message`: append to the history, then persist. -/
def chat_add_message (ok : Bool) (files : List (String × SessionData))
    (s : ChatSession) (role text : String) : ChatSession × List (String × SessionData) :=
  let s' := { s with history := s.history ++ [⟨role, text⟩] }
  (s', chat_session_save ok files s')

/-!  `ModelManager` (model_manager.py).  The per-attempt outcome of the
underlying `client.models.generate_content` call is an oracle indexed
by the global attempt counter; an exception is classified by the two
substring checks of the source (`is_model_error` is tested first). -/

/-- Outcome of one generation attempt: success carries
`response.text.strip() if response and response.text else None`;
failure carries the two error-class flags computed from the message. -/
inductive Attempt
  | success (text : Option String)
  | failure (isModelError : Bool) (isRateLimit : Bool)

/-- Result of `ModelManager.generate_content`: a returned value, a
re-raised exception, or falling off the retry loop (`return None`). -/
inductive GenResult
  | ok (t : Option String)
  | raised
  | fellThrough
deriving DecidableEq

/-- The retry loop of `generate_content` (model_manager.py 59-121).
`fuel` is the remaining iteration budget of
`for attempt in range(max_attempts)`, `used` the number of attempts
already made, and `keyIdx`/`modelIdx` the rotation state.  Returns the
result together with the total number of attempts made. -/
def generate_content_go (k m : Nat) (oracle : Nat → Attempt) :
    Nat → Nat → Nat → Nat → GenResult × Nat
  | 0, used, _, _ => (.fellThrough, used)
  | fuel + 1, used, keyIdx, modelIdx =>
    match oracle used with
    | .success t => (.ok t, used + 1)
    | .failure isModelError isRateLimit =>
      if isModelError then
        if modelIdx + 1 < m then
          generate_content_go k m oracle fuel (used + 1) 0 (modelIdx + 1)
        else (.raised, used + 1)
      else if isRateLimit then
        let newKey := (keyIdx + 1) % k
        if newKey ≠ 0 then
          generate_content_go k m oracle fuel (used + 1) newKey modelIdx
        else if modelIdx + 1 < m then
          generate_content_go k m oracle fuel (used + 1) 0 (modelIdx + 1)
        else (.raised, used + 1)
      else (.raised, used + 1)

/-- `ModelManager.generate_content` for `k` API keys and `m` models,
starting from rotation state `(0, 0)` with the attempt budget
`max_attempts = len(api_keys) * len(models) * 2`. -/
def generate_content (k m : Nat) (oracle : Nat → Attempt) : GenResult × Nat :=
  generate_content_go k m oracle (k * m * 2) 0 0 0

/-!  `RAGEngine` intent classification (rag_engine_new.py 225-521). -/

/-- Help keywords of the smalltalk guard. -/
def helpKeywords : List String := ["giup toi", "giup minh", "help", "help me", "ho tro"]

/-- Catalog-search vocabulary of the smalltalk guard. -/
def bookContextKeywords : List String := ["sach", "cuon", "quyen", "tim", "co", "muon"]

/-- The smalltalk keyword table (rag_engine_new.py 248-272). -/
def smalltalkKeywords : List String :=
  ["xin chao", "chao ban", "chao", "chao buoi sang", "chao buoi toi",
   "chao buoi trua", "chao buoi chieu",
   "hello", "hi", "hey", "good morning", "good afternoon", "good evening",
   "cam on", "cam on ban", "cam on nhieu",
   "thank", "thanks", "thank you", "tks", "ty",
   "tam biet", "hen gap lai", "gap lai sau", "bye bye",
   "bye", "goodbye", "see you", "see ya",
   "ban la ai", "ten gi", "khoe khong", "ban on khong", "ban co khoe khong",
   "how are you", "what\x27s up", "who are you", "what is your name",
   "alo", "yo", "hii", "hiii", "helloo", "helo",
   "xin loi", "sorry", "ok", "okay", "duoc", "duoc roi", "dc", "dk",
   "giup toi", "giup minh", "help", "help me", "ho tro"]

/-- The per-keyword test shared by `is_smalltalk` and
`answer_smalltalk.check_keywords`: a single-word keyword must occur as
a whole word of `q`, a multi-word keyword as a substring. -/
def keyword_word_check (q : List Char) (ks : List String) : Bool :=
  let qWords := pySplit q
  ks.any (fun k =>
    if !(hasSub k.data [' ']) then qWords.any (fun w => w == k.data)
    else hasSub q k.data)

/-- `RAGEngine.is_smalltalk` (rag_engine_new.py 225-289). -/
def is_smalltalk (question : String) : Bool :=
  let q := remove_diacritics_l (removePunct (strip (pyLowerL question.data)))
  let hasHelp := helpKeywords.any (fun k => hasSub q k.data)
  let hasBook := bookContextKeywords.any (fun k => hasSub q k.data)
  if hasHelp && hasBook then false
  else if smalltalkKeywords.any (fun k => q == k.data) then true
  else keyword_word_check q smalltalkKeywords

/-- Keyword table of `_is_book_related_query`. -/
def bookRelatedKeywords : List String :=
  ["sách", "cuốn", "quyển", "tài liệu", "giáo trình", "truyện",
   "tiểu thuyết", "tác phẩm", "ebook", "pdf",
   "sach", "cuon", "quyen", "tai lieu", "giao trinh", "truyen",
   "tieu thuyet", "tac pham",
   "tìm", "tìm kiếm", "gợi ý", "đề xuất", "cho tôi", "có không",
   "tim", "tim kiem", "goi y", "de xuat", "cho toi", "co khong",
   "python", "java", "programming", "lập trình", "lap trinh",
   "machine learning", "ai", "deep learning", "data science",
   "toán", "văn", "lịch sử", "địa lý", "vật lý", "hóa học",
   "toan", "van", "lich su", "dia ly", "vat ly", "hoa hoc",
   "book", "novel", "textbook", "recommend", "find", "search"]

/-- `RAGEngine._is_book_related_query` (rag_engine_new.py 355-382). -/
def is_book_related_query (question : String) : Bool :=
  let q := removePunct (pyLowerL question.data)
  bookRelatedKeywords.any (fun k => hasSub q k.data)

/-- `RAGEngine.is_library_stats_query` (rag_engine_new.py 431-447); the
four regex patterns are `p1.*p2` shapes over the normalised query. -/
def is_library_stats_query (q : String) : Bool :=
  let ql := remove_diacritics_l (pyLowerL q.data)
  (["sach", "cuon", "quyen", "tac pham"].any (fun t => seqSub ql "bao nhieu".data t.data))
  || (["tong so", "so luong"].any (fun p =>
        ["sach", "cuon", "quyen", "tac pham"].any (fun t => seqSub ql p.data t.data)))
  || seqSub ql "co".data "bao nhieu".data
  || seqSub ql "co".data "tat ca".data

/-- Keyword table of the effective `is_library_info_query`: the class
defines the method twice (lines 449 and 922); the second definition
wins in Python, so the keyword-list version is the one embedded. -/
def libraryInfoKeywords : List String :=
  ["gio mo cua", "thoi gian mo cua", "lich mo cua",
   "quy dinh", "noi quy", "luat thu vien",
   "phi phat", "tien phat",
   "cach muon", "thu tuc muon", "dieu kien muon", "luat muon", "huong dan muon",
   "cach tra", "thu tuc tra", "luat tra", "huong dan tra",
   "muon bao lau", "muon duoc may", "gia han"]

/-- `RAGEngine.is_library_info_query` (rag_engine_new.py 922-938). -/
def is_library_info_query (q : String) : Bool :=
  let ql := remove_diacritics_l (pyLowerL q.data)
  libraryInfoKeywords.any (fun k => hasSub ql k.data)

/-- Match a literal token prefix, returning the remainder. -/
def stripPrefixOpt (pre l : List Char) : Option (List Char) :=
  if pre.isPrefixOf l then some (l.drop pre.length) else none

/-- Greedy regex `\s+`: at least one whitespace character, consumed
maximally. -/
def wsPlus (l : List Char) : Option (List Char) :=
  match l with
  | c :: rest => if isSpaceChar c then some (rest.dropWhile isSpaceChar) else none
  | [] => none

/-- The regex character class `[a-z0-9\s]` of the title patterns. -/
def titleCapClass (c : Char) : Bool :=
  ('a' ≤ c && c ≤ 'z') || c.isDigit || isSpaceChar c

/-- Leftmost `re.search`: try the position matcher on every suffix,
left to right. -/
def searchLeftmost (f : List Char → Option (List Char)) (l : List Char) : Option (List Char) :=
  l.tails.findSome? f

/-- Title pattern 1 at one position:
`(?:tim|co|muon|kiem)\s+cuon\s+([a-z0-9\s]{3,})` (greedy capture). -/
def titlePat1At (l : List Char) : Option (List Char) :=
  ["tim", "co", "muon", "kiem"].findSome? fun a =>
    (stripPrefixOpt a.data l).bind fun r1 =>
    (wsPlus r1).bind fun r2 =>
    (stripPrefixOpt "cuon".data r2).bind fun r3 =>
    (wsPlus r3).bind fun r4 =>
      let cap := r4.takeWhile titleCapClass
      if 3 ≤ cap.length then some cap else none

/-- Title pattern 2 at one position:
`(?:cuon|quyen)\s+(?:ten|tua|co ten)\s+(?:la\s+)?([a-z0-9\s]{3,})`,
with the backtracking of the optional `la\s+` group. -/
def titlePat2At (l : List Char) : Option (List Char) :=
  ["cuon", "quyen"].findSome? fun a =>
    (stripPrefixOpt a.data l).bind fun r1 =>
    (wsPlus r1).bind fun r2 =>
    (["ten", "tua", "co ten"].findSome? fun b => stripPrefixOpt b.data r2).bind fun r3 =>
    (wsPlus r3).bind fun r4 =>
      let capAt := fun (r : List Char) =>
        let cap := r.takeWhile titleCapClass
        if 3 ≤ cap.length then some cap else none
      match (stripPrefixOpt "la".data r4).bind wsPlus with
      | some r5 => (capAt r5).orElse (fun _ => capAt r4)
      | none => capAt r4

/-- Category blacklist of `_is_title_search_query`. -/
def titleCategoryKeywords : List String :=
  ["toan", "ly", "hoa", "van", "su", "dia", "sinh",
   "kinh te", "tai chinh", "marketing", "lap trinh",
   "python", "java", "ai", "machine learning",
   "van hoc", "lich su", "khoa hoc", "tam ly", "triet hoc",
   "kinh doanh", "quan tri", "ky nang", "ngoai ngu"]

/-- Per-capture decision of `_is_title_search_query`: `some b` is an
early `return b`, `none` falls through to the next pattern. -/
def titleCheck (cap : List Char) : Option Bool :=
  let potential := strip cap
  if "ve ".data.isPrefixOf potential then some false
  else
    let isCat := titleCategoryKeywords.any
      (fun kw => hasSub potential kw.data || hasSub kw.data potential)
    if 3 ≤ potential.length && !isCat then some true else none

/-- `RAGEngine._is_title_search_query` (rag_engine_new.py 481-521). -/
def is_title_search_query (query : String) : Bool :=
  let qn := remove_diacritics_l (pyLowerL query.data)
  match searchLeftmost titlePat1At qn with
  | some cap =>
    (match titleCheck cap with
     | some b => b
     | none =>
       match searchLeftmost titlePat2At qn with
       | some cap2 => (titleCheck cap2).getD false
       | none => false)
  | none =>
    match searchLeftmost titlePat2At qn with
    | some cap2 => (titleCheck cap2).getD false
    | none => false

/-- Follow-up referential vocabulary (rag_engine_new.py 414-422). -/
def followupKeywords : List String :=
  ["cuon nay", "cuon do", "cuon thu", "sach nay", "sach do",
   "chi tiet", "no noi ve", "tac gia la ai", "gia bao nhieu",
   "trong so", "cuon nao", "cai nao", "de hoc", "tot nhat",
   "phu hop", "nen chon", "o tren", "vua roi", "trong danh sach",
   "hay nhat", "hay hon", "tot hon", "noi ve gi", "ve cai gi",
   "cua ai", "ai viet", "nam nao", "xuat ban nam", "may trang",
   "nen doc", "doc truoc", "doc sau", "cuon dau", "cuon cuoi"]

/-- The ordinal regex `(cuon|so|quyen)\s*\d+` of the follow-up check. -/
def followupNumPat (l : List Char) : Bool :=
  l.tails.any (fun t =>
    ["cuon", "so", "quyen"].any (fun a =>
      match stripPrefixOpt a.data t with
      | some r => ((r.dropWhile isSpaceChar).takeWhile Char.isDigit) ≠ []
      | none => false))

/-- The garbage-check regex class `[a-zA-ZÀ-ỹ0-9]`. -/
def isAlnumRange (c : Char) : Bool :=
  ('a' ≤ c && c ≤ 'z') || ('A' ≤ c && c ≤ 'Z') || ('0' ≤ c && c ≤ '9')
  || (0xC0 ≤ c.toNat && c.toNat ≤ 0x1EF9)

/-- `RAGEngine.classify_intent` (rag_engine_new.py 387-429).  Note the
garbage check is `len(q) < 2`, a hardcoded 2, not the configured
`MIN_QUERY_LENGTH`. -/
def classify_intent (query : String) (session : ChatSession) : String :=
  let q := pyLowerL (strip query.data)
  let q_normalized := remove_diacritics_l q
  if q.length < 2 || !(q.any isAlnumRange) then "GARBAGE"
  else if is_library_stats_query query then "STATS"
  else if is_smalltalk query then "SMALLTALK"
  else if is_library_info_query query then "LIBRARY_INFO"
  else if is_title_search_query query then "TITLE_SEARCH"
  else if session.last_search_results ≠ [] &&
      (followupKeywords.any (fun k => hasSub q_normalized k.data)
       || followupNumPat q_normalized) then "FOLLOWUP"
  else "SEARCH"

/-- Noise words removed by `_normalize_query`. -/
def noiseWords : List String :=
  ["ơi", "à", "ạ", "nhé", "nha", "đi", "cho tôi", "giúp tôi", "cho mình", "giúp mình"]

/-- Synonym standardisation of `_normalize_query`. -/
def synonymMap : List (String × String) :=
  [("quyển", "cuốn"), ("tác phẩm", "sách"), ("ebook", "sách")]

/-- `RAGEngine._normalize_query` (rag_engine_new.py 523-547). -/
def normalize_query (query : String) : String :=
  let q := pyLowerL (strip query.data)
  let q1 := apply_replacements (noiseWords.map (fun n => (n, ""))) q
  let q2 := apply_replacements synonymMap q1
  ⟨strip (collapseWs q2)⟩

/-- `RAGEngine._normalize_book_query` (rag_engine_new.py 549-562). -/
def normalize_book_query (question : String) : String :=
  let q := strip question.data
  let ql := remove_diacritics_l (pyLowerL q)
  if hasSub ql "machine learning".data && hasSub ql "sach".data then "sach machine learning"
  else if hasSub ql "python".data && (hasSub ql "tim".data || hasSub ql "sach".data) then
    "sach python"
  else ⟨q⟩

/-- Keyword table of `needs_synthesis`. -/
def synthesisKeywords : List String :=
  ["nên", "phù hợp", "gợi ý", "so sánh", "đánh giá",
   "phân tích", "tổng hợp", "giải thích", "vì sao", "như thế nào"]

/-- `RAGEngine.needs_synthesis` (rag_engine_new.py 633-638). -/
def needs_synthesis (question : String) : Bool :=
  let q := pyLowerL question.data
  synthesisKeywords.any (fun k => hasSub q k.data)

/-- `RAGEngine._enrich_query_context` (rag_engine_new.py 813-834). -/
def enrich_query_context (query : String) : String :=
  let q_norm := remove_diacritics_l (pyLowerL query.data)
  let e1 :=
    if ["co ban", "nhap mon", "nguoi moi", "bat dau", "so cap"].any
        (fun k => hasSub q_norm k.data) then
      query ++ " (beginner introduction tutorial)"
    else if ["nang cao", "chuyen sau", "chuyen gia", "phan tich", "tong hop"].any
        (fun k => hasSub q_norm k.data) then
      query ++ " (advanced in-depth analysis)"
    else query
  if ["tiếng anh", "tieng anh", "english", "nuoc ngoai"].any
      (fun k => hasSub q_norm k.data) then
    e1 ++ " (English edition foreign language)"
  else e1

/-!  Library information (rag/prompt.py `LIBRARY_INFO`) and the prompt
builders; Python `str.format` substitution is embedded as string
concatenation. -/

/-- `LIBRARY_INFO["opening_hours"]`. -/
def LIBRARY_OPENING_HOURS : String := "Thứ 2 – Thứ 6: 08:00 – 17:00"

/-- `LIBRARY_INFO["library_rules"]`. -/
def LIBRARY_RULES : List String :=
  ["Thư viện chỉ mở cửa từ Thứ 2 đến Thứ 6, khung giờ 08:00 – 17:00",
   "Giữ trật tự trong khu vực thư viện",
   "Không ăn uống trong phòng đọc",
   "Không viết, vẽ hoặc làm hư hỏng sách",
   "Giữ gìn tài sản chung của thư viện"]

/-- `LIBRARY_INFO["borrow_policy"]` in insertion order (fee, duration,
renew). -/
def BORROW_POLICY : List (String × String) :=
  [("fee", "Mượn sách hoàn toàn miễn phí"),
   ("duration", "Thời hạn mượn tối đa 10 ngày"),
   ("renew", "Có thể gia hạn nếu sách chưa có người đặt trước")]

/-- `LIBRARY_INFO["penalty_policy"]` in insertion order (late_return,
account_lock, lost_book). -/
def PENALTY_POLICY : List (String × String) :=
  [("late_return", "Trả sách trễ sẽ bị phạt theo số ngày trễ"),
   ("account_lock", "Vi phạm nhiều lần sẽ bị khóa tài khoản tạm thời"),
   ("lost_book", "Làm mất hoặc hư hỏng sách phải bồi thường")]

/-- Value lookup in the policy dicts (keys are static and present). -/
def policyGet (d : List (String × String)) (k : String) : String :=
  (assocGet d k).getD ""

/-- `ChatSession.get_history_text` with its default `max_turns = 8`. -/
def get_history_text (s : ChatSession) : String :=
  if s.history = [] then "(chưa có lịch sử)"
  else String.intercalate "\n"
    ((s.history.drop (s.history.length - 8)).map (fun h =>
      (if h.role == "user" then "Người dùng" else "Trợ lý") ++ ": " ++ h.text))

/-- The module-level `SMALLTALK_PROMPT_TEMPLATE` of rag_engine_new.py,
formatted with a history and a question. -/
def smalltalk_prompt (history question : String) : String :=
  "\nBạn là trợ lý AI thân thiện của thư viện.\n\nLịch sử hội thoại:\n"
  ++ history ++ "\n\nNgười dùng nói: \"" ++ question ++ "\"\n\n"
  ++ "Hãy trả lời một cách thân thiện, tự nhiên bằng tiếng Việt.\n"
  ++ "- Nếu là lời chào: chào lại và giới thiệu ngắn gọn bạn có thể giúp tìm sách, tra cứu thông tin thư viện\n"
  ++ "- Nếu là cảm ơn: đáp lại lịch sự và hỏi có cần giúp gì thêm không\n"
  ++ "- Nếu là tạm biệt: chào tạm biệt thân thiện\n"
  ++ "- Nếu hỏi về bạn: giới thiệu bạn là trợ lý AI thư viện\n"
  ++ "- Nếu là câu hỏi chung: trả lời ngắn gọn, thông minh\n\n"
  ++ "Trả lời ngắn gọn (1-3 câu), thân thiện. KHÔNG dùng emoji.\n"
  ++ "KHÔNG đưa ra danh sách sách nếu không được hỏi.\n"

/-- The module-level `GENERAL_QA_PROMPT_TEMPLATE` of rag_engine_new.py. -/
def general_qa_prompt (history question : String) : String :=
  "\nBạn là trợ lý AI thông minh của thư viện.\n\nLịch sử hội thoại gần đây:\n"
  ++ history ++ "\n\nCâu hỏi của người dùng: \"" ++ question ++ "\"\n\n"
  ++ "Hướng dẫn trả lời:\n"
  ++ "1. Nếu là câu hỏi kiến thức chung (toán, khoa học, lịch sử, v.v.): Trả lời chính xác, ngắn gọn\n"
  ++ "2. Nếu là câu hỏi về sách nhưng thư viện không có: Nói rõ thư viện chưa có sách phù hợp\n"
  ++ "3. Nếu là câu hỏi cá nhân hoặc không phù hợp: Nhẹ nhàng từ chối và hướng về chức năng thư viện\n"
  ++ "4. Nếu là câu hỏi tiếp nối: Dựa vào lịch sử để trả lời chính xác\n\n"
  ++ "Trả lời bằng tiếng Việt, thân thiện, chính xác.\n"
  ++ "KHÔNG dùng emoji/icon. KHÔNG dùng định dạng bôi đen (**text**).\n"
  ++ "KHÔNG bịa tên sách hoặc thông tin không chính xác.\n"

/-- A separator line of the follow-up template. -/
def sepLine : String := "============================\n"

/-- The module-level `FOLLOWUP_PROMPT_TEMPLATE` of rag_engine_new.py. -/
def followup_prompt (history previous_books question : String) : String :=
  "\nBạn là TRỢ LÝ THƯ VIỆN AI thông minh.\n\n"
  ++ sepLine ++ "Lịch sử hội thoại:\n" ++ sepLine ++ history ++ "\n\n"
  ++ sepLine ++ "Danh sách sách đã đề cập trước đó:\n" ++ sepLine ++ previous_books ++ "\n\n"
  ++ sepLine ++ "Câu hỏi tiếp theo của người dùng:\n" ++ sepLine ++ question ++ "\n\n"
  ++ sepLine ++ "Hướng dẫn trả lời:\n" ++ sepLine
  ++ "1. Đây là câu hỏi TIẾP NỐI, hãy dựa vào ngữ cảnh trước đó\n"
  ++ "2. Nếu hỏi \"cuốn nào hay/dễ/tốt nhất\" → chọn từ danh sách sách đã đề cập và giải thích lý do\n"
  ++ "3. Nếu hỏi \"cuốn thứ X\" → tham chiếu đến vị trí trong danh sách\n"
  ++ "4. Nếu hỏi chi tiết về một cuốn → cung cấp thông tin có sẵn\n"
  ++ "5. Trả lời ngắn gọn, đi thẳng vào vấn đề.\n"
  ++ "6. KHÔNG dùng icon/emoji. KHÔNG dùng định dạng bôi đen (**text**).\n"

/-- `RAGEngine._build_library_context` (rag_engine_new.py 640-646),
already joined into the strings used by the prompt template. -/
def build_library_context : String × String × String × String :=
  (LIBRARY_OPENING_HOURS,
   String.intercalate "\n" (LIBRARY_RULES.map (fun r => "- " ++ r)),
   String.intercalate "\n" (BORROW_POLICY.map (fun p => "- " ++ p.1 ++ ": " ++ p.2)),
   String.intercalate "\n" (PENALTY_POLICY.map (fun p => "- " ++ p.1 ++ ": " ++ p.2)))

/-- `SYSTEM_PROMPT` of rag/prompt.py, abridged to its opening line; the
full text is a static constant that only flows into the opaque
language-model port. -/
def SYSTEM_PROMPT : String :=
  "\nBạn là TRỢ LÝ THƯ VIỆN AI thông minh và thân thiện.\n"

/-- `USER_PROMPT_TEMPLATE.format(question=..., books=..., **ctx)` of
rag/prompt.py, with the library context spliced in. -/
def user_prompt (question books : String) : String :=
  let ctx := build_library_context
  "\n" ++ sepLine ++ "Câu hỏi của người dùng:\n" ++ sepLine ++ question ++ "\n\n"
  ++ sepLine ++ "Danh sách sách liên quan:\n" ++ sepLine ++ books ++ "\n\n"
  ++ sepLine ++ "Thông tin thư viện:\n" ++ sepLine
  ++ "- Giờ mở cửa: " ++ ctx.1 ++ "\n\n- Nội quy thư viện:\n" ++ ctx.2.1
  ++ "\n\n- Quy định mượn sách:\n" ++ ctx.2.2.1
  ++ "\n\n- Phí phạt & khóa tài khoản:\n" ++ ctx.2.2.2 ++ "\n\n"
  ++ sepLine ++ "Hướng dẫn trả lời:\n" ++ sepLine
  ++ "1. Nếu hỏi về sách cụ thể → trả lời dựa trên danh sách sách\n"
  ++ "2. Nếu hỏi \"cuốn nào hay/dễ/phù hợp nhất\" → phân tích và gợi ý 1-2 cuốn với lý do\n"
  ++ "3. Nếu hỏi về thư viện (giờ, nội quy, mượn trả) → dùng thông tin thư viện\n"
  ++ "4. Nếu là câu hỏi follow-up → tham chiếu lịch sử hội thoại\n"
  ++ "5. KHÔNG bịa thông tin không có trong dữ liệu\n"

/-- `RAGEngine._call_gemini` (rag_engine_new.py 1087-1098): the model
manager's rotation is hidden behind the language-model port here; a
raised error is caught and turned into the busy message, a falsy
result (None or the empty string) into the no-reply message. -/
def call_gemini (env : Env) (prompt : String) : String × List PortCall :=
  (match env.llm prompt with
   | .ok (some s) => if s.isEmpty then "Xin lỗi, không có phản hồi." else s
   | .ok none => "Xin lỗi, không có phản hồi."
   | .error _ => "Hệ thống đang bận hoặc gặp sự cố kết nối.",
   [PortCall.llmGenerate])

/-- `RAGEngine._gemini_fallback` (rag_engine_new.py 1079-1085). -/
def gemini_fallback (env : Env) (question : String) (session : ChatSession) :
    String × List PortCall :=
  call_gemini env (general_qa_prompt (get_history_text session) question)

/-- `RAGEngine.answer_smalltalk` (rag_engine_new.py 291-347).  The
hardcoded branches make no port call; the fallback calls the language
model (`_call_gemini` never raises, so the surrounding `except` of the
source is unreachable). -/
def answer_smalltalk (env : Env) (question : String) (session : ChatSession) :
    String × List PortCall :=
  let q := removePunct (remove_diacritics_l (strip (pyLowerL question.data)))
  let check := fun (ks : List String) => keyword_word_check q ks
  if check ["xin chao", "chao ban", "chao", "hello", "hi", "hey", "alo", "yo"] then
    ("Xin chào! Tôi là trợ lý thư viện AI. Tôi có thể giúp bạn tìm sách, tra cứu thông tin thư viện. Bạn cần gì nào?", [])
  else if check ["cam on", "cam on ban", "thanks", "thank you", "tks", "ty"] then
    ("Không có gì! Nếu bạn cần gì thêm, cứ hỏi nhé!", [])
  else if check ["tam biet", "bye", "goodbye", "see you", "hen gap lai"] then
    ("Tạm biệt! Hẹn gặp lại bạn!", [])
  else if check ["ban la ai", "ten gi", "who are you", "what is your name"] then
    ("Tôi là Trợ lý AI của Thư viện. Tôi có thể giúp bạn tìm sách, tra cứu giờ mở cửa, nội quy và các thông tin khác về thư viện.", [])
  else if check ["khoe khong", "ban on khong", "how are you", "what\x27s up"] then
    ("Tôi vẫn khỏe! Cảm ơn bạn đã hỏi. Bạn cần tìm sách gì hôm nay?", [])
  else if check ["giup toi", "giup minh", "help", "ho tro"] then
    ("Tôi có thể giúp bạn: Tìm sách theo chủ đề, tác giả hoặc thể loại; Tra cứu giờ mở cửa thư viện; Xem nội quy và quy định mượn sách. Bạn muốn làm gì?", [])
  else if check ["ok", "okay", "duoc", "duoc roi", "dc", "dk"] then
    ("Vâng! Nếu bạn cần gì thêm, cứ hỏi nhé!", [])
  else
    call_gemini env (smalltalk_prompt (get_history_text session) question)

/-- `RAGEngine._generate_library_info_answer` (rag_engine_new.py
940-986); the duplicated trailing branches of the source are dead code
and collapse into the chain shown. -/
def generate_library_info_answer (env : Env) (question : String) (_session : ChatSession) :
    String × List PortCall :=
  let ql := remove_diacritics_l (pyLowerL question.data)
  let has := fun (ks : List String) => ks.any (fun k => hasSub ql k.data)
  if has ["gio mo cua", "mo cua", "may gio"] then
    ("Thư viện mở cửa: " ++ LIBRARY_OPENING_HOURS ++ ". Ngoài giờ này thư viện đóng cửa.", [])
  else if has ["muon sach", "muon", "borrow", "gia han"] then
    ("Quy định mượn sách:\n- " ++ policyGet BORROW_POLICY "fee"
     ++ "\n- " ++ policyGet BORROW_POLICY "duration"
     ++ "\n- " ++ policyGet BORROW_POLICY "renew", [])
  else if has ["tra sach", "tra", "return"] then
    ("Quy định trả sách:\n- " ++ policyGet PENALTY_POLICY "late_return"
     ++ "\n- " ++ policyGet PENALTY_POLICY "account_lock"
     ++ "\n- " ++ policyGet PENALTY_POLICY "lost_book", [])
  else if has ["phi phat", "phat", "penalty"] then
    ("Quy định phí phạt:\n- " ++ policyGet PENALTY_POLICY "late_return"
     ++ "\n- " ++ policyGet PENALTY_POLICY "account_lock"
     ++ "\n- " ++ policyGet PENALTY_POLICY "lost_book", [])
  else if has ["noi quy", "quy dinh", "luat"] then
    ("Nội quy thư viện:\n"
     ++ String.intercalate "\n" (LIBRARY_RULES.map (fun r => "- " ++ r)), [])
  else
    call_gemini env (SYSTEM_PROMPT ++ "\n" ++ user_prompt question "(Khong ap dung)")

/-!  `RAGEngine.answer_followup` (rag_engine_new.py 570-631). -/

/-- The spelled-out ordinal dictionary `text_nums`, whose last entry
depends on the current result-list length. -/
def textNums (n : Nat) : List (String × Nat) :=
  [("một", 1), ("hai", 2), ("ba", 3), ("bốn", 4), ("năm", 5),
   ("nhất", 1), ("nhì", 2), ("đầu tiên", 1), ("cuối cùng", n)]

/-- The regex
`(thứ|số|cuốn|quyển)\s*(một|hai|ba|bốn|năm|nhất|nhì|đầu tiên|cuối cùng)`
at one position, returning the captured ordinal word. -/
def textPatAt (t : List Char) : Option String :=
  ["thứ", "số", "cuốn", "quyển"].findSome? fun a =>
    (stripPrefixOpt a.data t).bind fun r0 =>
      let r := r0.dropWhile isSpaceChar
      ["một", "hai", "ba", "bốn", "năm", "nhất", "nhì", "đầu tiên", "cuối cùng"].findSome?
        fun k => if k.data.isPrefixOf r then some k else none

/-- The regex `(?:thứ|số|cuốn|quyển|^)\s*(\d+)` at one position; the
`^` alternative only applies at the start of the string. -/
def digitPatAt (isStart : Bool) (t : List Char) : Option Nat :=
  (["thứ", "số", "cuốn", "quyển"].findSome? fun a =>
    (stripPrefixOpt a.data t).bind fun r =>
      let ds := (r.dropWhile isSpaceChar).takeWhile Char.isDigit
      if ds ≠ [] then some (natOfDigits ds) else none).orElse
  (fun _ =>
    if isStart then
      let ds := (t.dropWhile isSpaceChar).takeWhile Char.isDigit
      if ds ≠ [] then some (natOfDigits ds) else none
    else none)

/-- Leftmost search for the digit pattern. -/
def digitPatSearch (l : List Char) : Option Nat :=
  l.tails.enum.findSome? fun p => digitPatAt (p.1 == 0) p.2

/-- Book lines `f"{i}. {title} – {authors}"` of the summarize-all branch. -/
def followup_books_lines (docs : List Book) : String :=
  String.intercalate "\n"
    (docs.enum.map (fun p => toString (p.1 + 1) ++ ". " ++ p.2.title ++ " – " ++ p.2.authors))

/-- Book lines `f"{i}. {title} – {authors} ({publish_year})"` of the
LLM follow-up branch. -/
def followup_books_lines_y (docs : List Book) : String :=
  String.intercalate "\n"
    (docs.enum.map (fun p => toString (p.1 + 1) ++ ". " ++ p.2.title ++ " – "
      ++ p.2.authors ++ " (" ++ p.2.publish_year ++ ")"))

/-- First `n` characters of a string (Python slicing `s[:n]`). -/
def strTake (s : String) (n : Nat) : String := ⟨s.data.take n⟩

/-- A placeholder book; unreachable under the bounds guard of the
indexed branch. -/
def defaultBook : Book := ⟨"", "", "", "", "", 0, ""⟩

/-- `RAGEngine.answer_followup` (rag_engine_new.py 570-631). -/
def answer_followup (env : Env) (question : String) (session : ChatSession) :
    String × List PortCall :=
  let q := pyLowerL question.data
  if ["tất cả", "cả hai", "cả 2", "cả 3", "mọi cuốn", "những cuốn này", "các cuốn"].any
      (fun k => hasSub q k.data) then
    call_gemini env (followup_prompt (get_history_text session)
      (followup_books_lines session.last_search_results) question)
  else
    let n := session.last_search_results.length
    let idx : Int :=
      match q.tails.findSome? textPatAt with
      | some key => Int.ofNat ((assocGet (textNums n) key).getD 0) - 1
      | none =>
        match digitPatSearch q with
        | some d => Int.ofNat d - 1
        | none => -1
    let inRange : Bool := decide (0 ≤ idx) && decide (idx < Int.ofNat n)
    if inRange then
      let b := (session.last_search_results[idx.toNat]?).getD defaultBook
      (b.title ++ "\n- Tác giả: " ++ b.authors
        ++ "\n- Năm xuất bản: " ++ b.publish_year
        ++ "\n- Mã sách: " ++ b.identifier
        ++ "\n\nNội dung:\n" ++ strTake b.richtext 1000 ++ "...", [])
    else if session.last_search_results ≠ [] then
      call_gemini env (followup_prompt (get_history_text session)
        (followup_books_lines_y session.last_search_results) question)
    else
      ("Bạn muốn hỏi về cuốn sách số mấy? (Ví dụ: \x27cuốn số 1\x27, \x27quyển đầu tiên\x27)", [])

/-!  `SearchEngine.get_filters` (search_engine.py 182-230) and
`RAGEngine._extract_filters_from_text` (rag_engine_new.py 648-811).
`get_filters` is modelled without its process-wide cache, i.e. as a
cold-cache run that performs the metadata scan; the cache only
suppresses repeated scans and does not change the returned value.
CPython's `set` iteration order is unspecified; the model fixes it to
first-occurrence order (`eraseDups`), which is irrelevant after the
sorts except for the order of equal-length ties. -/

/-- Facet lists returned by `get_filters`. -/
structure FilterLists where
  categories : List String
  years : List String
  authors : List String

/-- `SearchEngine.get_filters`. -/
def get_filters (env : Env) : FilterLists × List PortCall :=
  let metas := env.allMetadata
  if metas = [] then (⟨[], [], []⟩, [PortCall.metadataScan])
  else
    let categories :=
      ((metas.filterMap (fun m => if !m.category.isEmpty then some m.category else none)).eraseDups).mergeSort
        (fun a b => decide (a ≤ b))
    let years :=
      ((metas.filterMap (fun m => if !m.publish_year.isEmpty then some m.publish_year else none)).eraseDups).mergeSort
        (fun a b => decide (b ≤ a))
    let authors :=
      ((((metas.filter (fun m => !m.authors.isEmpty)).flatMap
          (fun m => (m.authors.data.splitOn ',').map (fun a => (⟨strip a⟩ : String)))).eraseDups).mergeSort
        (fun a b => decide (a ≤ b))).take 100
    (⟨categories, years, authors⟩, [PortCall.metadataScan])

/-- The synonym table `category_map` of `_extract_filters_from_text`,
in insertion order. -/
def categoryMap : List (String × String) :=
  [("python", "Máy tính"), ("cntt", "Công nghệ thông tin"), ("it", "Công nghệ thông tin"),
   ("ai", "Trí tuệ và Dữ liệu"), ("tri tue nhan tao", "Trí tuệ và Dữ liệu"),
   ("machine learning", "Trí tuệ và Dữ liệu"), ("hoc may", "Trí tuệ và Dữ liệu"),
   ("data science", "Trí tuệ và Dữ liệu"), ("khoa hoc du lieu", "Trí tuệ và Dữ liệu"),
   ("toan", "Toán"), ("toan hoc", "Toán"), ("ly", "Vật lý"), ("vat ly", "Vật lý"),
   ("hoa", "Hóa học"), ("hoa hoc", "Hóa học"), ("van", "Văn học"), ("van hoc", "Văn học"),
   ("kinh te", "Kinh tế"), ("kinh te hoc", "Kinh tế"), ("marketing", "Marketing"),
   ("ky nang", "Kỹ năng"), ("tam ly", "Tâm lý"), ("tam ly hoc", "Tâm lý")]

/-- The regex word class `\w`, over the ASCII range of the normalised
query text. -/
def isWordChar (c : Char) : Bool :=
  ('a' ≤ c && c ≤ 'z') || ('A' ≤ c && c ≤ 'Z') || c.isDigit || c = '_'

/-- Position scan of `re.search(r"\b" + key + r"\b", q)`: an occurrence
of `pat` with non-word characters (or ends) on both sides. -/
def boundedSubGo (pat : List Char) (prev : Option Char) : List Char → Bool
  | [] =>
    pat.isPrefixOf ([] : List Char)
      && (match prev with | some p => !isWordChar p | none => true)
  | c :: rest =>
    (pat.isPrefixOf (c :: rest)
      && (match prev with | some p => !isWordChar p | none => true)
      && (match (c :: rest).drop pat.length with
          | d :: _ => !isWordChar d
          | [] => true))
    || boundedSubGo pat (some c) rest

/-- Word-bounded substring test. -/
def boundedSub (hay pat : List Char) : Bool := boundedSubGo pat none hay

/-- The regex class `[\w\s]`. -/
def wordSpaceClass (c : Char) : Bool := isWordChar c || isSpaceChar c

/-- `(?:ve|chu de|mon|linh vuc|loai|the loai|danh muc)\s+([\w\s]+)` at
one position (greedy capture; the degenerate backtracking case of an
all-whitespace capture is not modelled). -/
def catPat1At (l : List Char) : Option (List Char) :=
  ["ve", "chu de", "mon", "linh vuc", "loai", "the loai", "danh muc"].findSome? fun a =>
    ((stripPrefixOpt a.data l).bind wsPlus).bind fun r =>
      let cap := r.takeWhile wordSpaceClass
      if cap ≠ [] then some cap else none

/-- `sach\s+([\w\s]+)` at one position. -/
def catPat2At (l : List Char) : Option (List Char) :=
  ((stripPrefixOpt "sach".data l).bind wsPlus).bind fun r =>
    let cap := r.takeWhile wordSpaceClass
    if cap ≠ [] then some cap else none

/-- `(?:tac gia|boi|viet boi|cua|soan boi)\s+([\w\s]+)` at one position. -/
def authPatAt (l : List Char) : Option (List Char) :=
  ["tac gia", "boi", "viet boi", "cua", "soan boi"].findSome? fun a =>
    ((stripPrefixOpt a.data l).bind wsPlus).bind fun r =>
      let cap := r.takeWhile wordSpaceClass
      if cap ≠ [] then some cap else none

/-- `(?:nam|xuat ban|xb)\s+(\d{4})` at one position. -/
def yearPat1At (l : List Char) : Option (List Char) :=
  ["nam", "xuat ban", "xb"].findSome? fun a =>
    ((stripPrefixOpt a.data l).bind wsPlus).bind fun r =>
      let ds := r.takeWhile Char.isDigit
      if 4 ≤ ds.length then some (ds.take 4) else none

/-- The standalone `(\d{4})` pattern at one position. -/
def yearPat2At (l : List Char) : Option (List Char) :=
  let ds := l.takeWhile Char.isDigit
  if 4 ≤ ds.length then some (ds.take 4) else none

/-- Validation of a captured year: known in the catalog, or a
plausible calendar year (the captured group is all digits by
construction). -/
def year_from_pat (db_years : List String) (cap : Option (List Char)) : Option String :=
  match cap with
  | some d =>
    if db_years.contains (⟨d⟩ : String)
        || (1900 ≤ natOfDigits d && natOfDigits d ≤ 2030) then some ⟨d⟩
    else none
  | none => none

/-- Year extraction step of `_extract_filters_from_text` (3a). -/
def extract_year (q_norm : List Char) (db_years : List String) : Option String :=
  (year_from_pat db_years (searchLeftmost yearPat1At q_norm)).orElse
    (fun _ => year_from_pat db_years (searchLeftmost yearPat2At q_norm))

/-- `(?:cuon|quyen|tac pham|tieu de|tua de)\s+(?:sach\s+)?(.+)` at one
position, with the backtracking of the optional `sach\s+` group; the
`.+` capture runs to the end of the text. -/
def extTitlePat1At (l : List Char) : Option (List Char) :=
  ["cuon", "quyen", "tac pham", "tieu de", "tua de"].findSome? fun a =>
    ((stripPrefixOpt a.data l).bind wsPlus).bind fun r =>
      match (stripPrefixOpt "sach".data r).bind wsPlus with
      | some x => if x ≠ [] then some x else (if r ≠ [] then some r else none)
      | none => if r ≠ [] then some r else none

/-- `sach\s+(?:ten|tua|co ten|co tua)\s+(?:la\s+)?(.+)` at one position. -/
def extTitlePat2At (l : List Char) : Option (List Char) :=
  ((stripPrefixOpt "sach".data l).bind wsPlus).bind fun r =>
    (["ten", "tua", "co ten", "co tua"].findSome? fun b => stripPrefixOpt b.data r).bind fun r2 =>
    (wsPlus r2).bind fun r3 =>
      match (stripPrefixOpt "la".data r3).bind wsPlus with
      | some x => if x ≠ [] then some x else (if r3 ≠ [] then some r3 else none)
      | none => if r3 ≠ [] then some r3 else none

/-- The category blacklist used by the title-extraction step (distinct
from the one in `_is_title_search_query`). -/
def extractCategoryKeywords : List String :=
  ["toan", "ly", "hoa", "van", "su", "dia", "sinh",
   "kinh te", "tai chinh", "marketing", "lap trinh", "cntt",
   "python", "java", "ai", "machine learning", "data science",
   "ky nang", "tam ly", "triet hoc", "van hoc", "khoa hoc"]

/-- Acceptance test of a captured raw title (step 3b). -/
def ext_title_check (cap : List Char) : Option String :=
  let raw := strip cap
  let isCat := extractCategoryKeywords.any (fun kw => hasSub raw kw.data)
  let isVe := "ve ".data.isPrefixOf raw || hasSub raw " ve ".data
  if 2 < raw.length && !isCat && !isVe then some ⟨raw⟩ else none

/-- Title extraction step of `_extract_filters_from_text` (3b). -/
def extract_title (q_norm : List Char) : Option String :=
  (match searchLeftmost extTitlePat1At q_norm with
   | some cap => ext_title_check cap
   | none => none).orElse
  (fun _ =>
    match searchLeftmost extTitlePat2At q_norm with
    | some cap => ext_title_check cap
    | none => none)

/-- Author extraction step of `_extract_filters_from_text` (3c):
validated by fuzzy substring match against the catalog authors. -/
def extract_author (q_norm : List Char) (db_authors : List String) : Option String :=
  match searchLeftmost authPatAt q_norm with
  | some cap =>
    let potential := strip cap
    db_authors.findSome? (fun auth =>
      let an := remove_diacritics_l (pyLowerL auth.data)
      if hasSub an potential || hasSub potential an then some auth else none)
  | none => none

/-- Fuzzy category match of the regex fallback step. -/
def cat_fuzzy (sorted_cats : List String) (cap : List Char) : Option String :=
  let potential := strip cap
  sorted_cats.findSome? (fun cat =>
    let cn := remove_diacritics_l (pyLowerL cat.data)
    if hasSub potential cn || hasSub cn potential then some cat else none)

/-- Category extraction step of `_extract_filters_from_text`: synonym
table (word-bounded), then direct containment against the facet list
sorted by length (longest first), then the attribution regexes with
fuzzy validation. -/
def extract_category (q_norm : List Char) (all_categories : List String) : Option String :=
  ((categoryMap.findSome? (fun p =>
      if boundedSub q_norm p.1.data then some p.2 else none)).orElse
  (fun _ =>
    let sorted_cats := all_categories.mergeSort (fun a b => decide (b.length ≤ a.length))
    ((sorted_cats.findSome? (fun cat =>
        if hasSub q_norm (remove_diacritics_l (pyLowerL cat.data)) then some cat else none)).orElse
    (fun _ =>
      (match searchLeftmost catPat1At q_norm with
       | some cap => cat_fuzzy sorted_cats cap
       | none => none).orElse
      (fun _ =>
        match searchLeftmost catPat2At q_norm with
        | some cap => cat_fuzzy sorted_cats cap
        | none => none)))))

/-- `RAGEngine._extract_filters_from_text` (rag_engine_new.py 648-811). -/
def extract_filters_from_text (env : Env) (query : String) : Filters × List PortCall :=
  let q_norm := remove_diacritics_l (pyLowerL query.data)
  let fl := get_filters env
  let all_categories := (fl.1.categories ++ CRAWL_TOPICS).eraseDups
  (⟨extract_title q_norm,
    extract_author q_norm fl.1.authors,
    extract_category q_norm all_categories,
    extract_year q_norm fl.1.years⟩, fl.2)

/-!  The engine state: the in-memory sessions dict, the session files on
disk, and the `query_memory` collection. -/

/-- Process state owned by `RAGEngine` plus the persisted artefacts. -/
structure EngineState where
  sessions : List (String × ChatSession)
  files : List (String × SessionData)
  qmem : List QMemEntry

/-- `RAGEngine.get_session` (rag_engine_new.py 211-216). -/
def get_session (st : EngineState) (session_id : String) : ChatSession × EngineState :=
  match assocGet st.sessions session_id with
  | some s => (s, st)
  | none =>
    let s := chat_session_load st.files ⟨session_id, [], []⟩
    (s, { st with sessions := assocSet st.sessions session_id s })

/-- `session.add_message` within the engine: the in-memory session
object is mutated (and the sessions dict therefore sees the update)
and the record is persisted write-through. -/
def add_message (saveOk : Bool) (st : EngineState) (s : ChatSession) (role text : String) :
    ChatSession × EngineState :=
  let p := chat_add_message saveOk st.files s role text
  (p.1, { st with files := p.2, sessions := assocSet st.sessions s.session_id p.1 })

/-!  `RAGEngine._perform_book_search` (rag_engine_new.py 988-1077). -/

/-- The raw-document stage of `_perform_book_search` including
Fallback B: if the filtered search returns nothing and filters were
given, retry once with no filters. -/
def book_search_raw_docs (env : Env) (search_query : String) (filters : Option Filters)
    (limit : Nat) : List Book × List PortCall :=
  let r := search env search_query filters limit
  if r.1 = [] ∧ filtersTruthy filters = true then
    let r2 := search env search_query none limit
    (r2.1, r.2 ++ r2.2)
  else r

/-- Sort key of the newest-first re-sort:
`str(x.get("publish_year", "0")).isdigit() and int(...) or 0`. -/
def yearKey (d : Book) : Nat :=
  if d.publish_year.data ≠ [] && d.publish_year.data.all Char.isDigit then
    natOfDigits d.publish_year.data
  else 0

/-- `max(d.get("score", 0) for d in docs)` (evaluated on a non-empty
list by the caller). -/
def maxScore : List Book → ℚ
  | [] => 0
  | d :: ds => ds.foldl (fun m x => max m x.score) d.score

/-- Result record of `_perform_book_search`: the `(answer, sources)`
pair of the source together with the updated session, engine state and
port-call trace. -/
structure PBSOut where
  answer : String
  sources : List Book
  session : ChatSession
  st : EngineState
  trace : List PortCall

/-- Main part of `_perform_book_search` after the cache stage:
search with Fallback B, optional newest-first re-sort, the score
threshold, session update, answer formatting and cache store. -/
def perform_book_search_main (env : Env) (saveOk : Bool) (st : EngineState)
    (session : ChatSession) (question : String) (filters : Option Filters) (top_k : Nat)
    (search_query : String) (q_vec : List ℚ) (tr : List PortCall) : PBSOut :=
  let r := book_search_raw_docs env search_query filters (top_k * SEARCH_EXPAND_FACTOR)
  let tr2 := tr ++ r.2
  if r.1 = [] then
    let g := gemini_fallback env question session
    ⟨g.1, [], session, st, tr2 ++ g.2⟩
  else
    let q_norm := remove_diacritics_l (pyLowerL question.data)
    let raw_docs :=
      if ["moi nhat", "gan day", "nam nay", "latest", "newest"].any
          (fun k => hasSub q_norm k.data) then
        r.1.mergeSort (fun a b => decide (yearKey b ≤ yearKey a))
      else r.1
    if maxScore raw_docs < SCORE_THRESHOLD then
      let g := gemini_fallback env question session
      ⟨g.1, [], session, st, tr2 ++ g.2⟩
    else
      let docs := raw_docs.take top_k
      let session1 := { session with last_search_results := docs }
      let st1 := { st with files := chat_session_save saveOk st.files session1,
                           sessions := assocSet st.sessions session1.session_id session1 }
      let books_text := followup_books_lines_y docs
      if !(needs_synthesis question) then
        let answer := "Danh sách sách liên quan:\n\n" ++ books_text
        if !q_vec.isEmpty then
          let st2 := { st1 with
            qmem := add_query_memory env.hashFn env.now st1.qmem question q_vec answer "rag_list" }
          ⟨answer, docs, session1, st2, tr2 ++ [PortCall.cacheStore (qmemId env.hashFn question)]⟩
        else ⟨answer, docs, session1, st1, tr2⟩
      else
        let g := call_gemini env (SYSTEM_PROMPT ++ "\n" ++ user_prompt question books_text)
        let answer := "Danh sách sách liên quan:\n\n" ++ books_text ++ "\n\nTổng hợp:\n" ++ g.1
        if !q_vec.isEmpty then
          let st2 := { st1 with
            qmem := add_query_memory env.hashFn env.now st1.qmem question q_vec answer "rag_synthesis" }
          ⟨answer, docs, session1, st2,
           tr2 ++ g.2 ++ [PortCall.cacheStore (qmemId env.hashFn question)]⟩
        else ⟨answer, docs, session1, st1, tr2 ++ g.2⟩

/-- `RAGEngine._perform_book_search` (rag_engine_new.py 988-1077):
query enrichment, embedding, the semantic-cache stage (lookup and the
book-cache guard, both skipped when `filters` is truthy or the
embedding is falsy), then the main search stage.  The `cache_key`
computed by the source (lines 1000-1010) is never used afterwards and
is omitted. -/
def perform_book_search (env : Env) (saveOk : Bool) (st : EngineState) (session : ChatSession)
    (question : String) (filters : Option Filters) (top_k : Nat) : PBSOut :=
  let search_query := enrich_query_context question
  let q_vec := embedText env search_query
  let lookedUp := !q_vec.isEmpty && !(filtersTruthy filters)
  let tr1 := [PortCall.embedCall search_query] ++ (if lookedUp then [PortCall.cacheQuery] else [])
  let cached := if lookedUp then search_query_memory env q_vec QUERY_CACHE_THRESHOLD else none
  let hit :=
    match cached with
    | some c =>
      if hasSub c.data "Danh sách sách".data && !(is_book_related_query question) then none
      else some c
    | none => none
  match hit with
  | some c => ⟨"(Cache) " ++ c, [], session, st, tr1⟩
  | none => perform_book_search_main env saveOk st session question filters top_k search_query q_vec tr1

/-!  `RAGEngine.generate_answer` (rag_engine_new.py 836-917). -/

/-- The boundary record `{"answer": ..., "intent": ..., "sources": ...}`. -/
structure AnswerDict where
  answer : String
  intent : String
  sources : List Book
deriving DecidableEq

/-- The fixed apology returned by the catch-all of `generate_answer`. -/
def apology_answer : AnswerDict :=
  ⟨"Xin lỗi, hệ thống đang gặp sự cố kỹ thuật. Vui lòng thử lại sau.", "ERROR", []⟩

/-- The body of `generate_answer` inside its `try`.  A raised exception
is an `Except.error`; in this embedding the faithful raise point is the
unguarded `collection.count()` call of the STATS branch
(`env.countResult`), every other port access being caught closer to
its call site in the source. -/
def generate_answer_core (env : Env) (saveOk : Bool) (st : EngineState)
    (question session_id : String) (filters0 : Option Filters) (top_k : Nat) :
    Except String AnswerDict × EngineState × List PortCall :=
  let p0 := get_session st session_id
  let session0 := p0.1
  let p1 := add_message saveOk p0.2 session0 "user" question
  let session1 := p1.1
  let st1 := p1.2
  let intent :=
    if is_smalltalk question then "SMALLTALK"
    else if is_library_stats_query question then "STATS"
    else if is_library_info_query question then "LIBRARY_INFO"
    else classify_intent (normalize_query question) session1
  let pf :=
    if intent == "SEARCH" && !(filtersTruthy filters0) then
      let ex := extract_filters_from_text env question
      ((if filtersTruthy (some ex.1) then some ex.1 else filters0), ex.2)
    else (filters0, ([] : List PortCall))
  let filters := pf.1
  let trE := pf.2
  if intent == "GARBAGE" then
    let answer := "Câu hỏi không hợp lệ hoặc quá ngắn."
    let p2 := add_message saveOk st1 session1 "model" answer
    (.ok ⟨answer, intent, []⟩, p2.2, trE)
  else if intent == "SMALLTALK" then
    let g := answer_smalltalk env question session1
    let p2 := add_message saveOk st1 session1 "model" g.1
    (.ok ⟨g.1, intent, []⟩, p2.2, trE ++ g.2)
  else if intent == "FOLLOWUP" then
    let g := answer_followup env question session1
    let p2 := add_message saveOk st1 session1 "model" g.1
    (.ok ⟨g.1, intent, []⟩, p2.2, trE ++ g.2)
  else if intent == "STATS" then
    match env.countResult with
    | .error e => (.error e, st1, trE ++ [PortCall.countQuery])
    | .ok total =>
      let answer := "Hiện tại thư viện có " ++ toString total ++ " cuốn sách trong hệ thống."
      let p2 := add_message saveOk st1 session1 "model" answer
      (.ok ⟨answer, intent, []⟩, p2.2, trE ++ [PortCall.countQuery])
  else if intent == "LIBRARY_INFO" then
    let g := generate_library_info_answer env question session1
    let p2 := add_message saveOk st1 session1 "model" g.1
    (.ok ⟨g.1, intent, []⟩, p2.2, trE ++ g.2)
  else if intent == "TITLE_SEARCH" then
    let ex := extract_filters_from_text env question
    let pb :=
      if ex.1.title.isSome then
        perform_book_search env saveOk st1 session1 question
          (some ⟨ex.1.title, none, none, none⟩) top_k
      else
        perform_book_search env saveOk st1 session1 (normalize_book_query question) filters top_k
    let p2 := add_message saveOk pb.st pb.session "model" pb.answer
    (.ok ⟨pb.answer, intent, pb.sources⟩, p2.2, trE ++ ex.2 ++ pb.trace)
  else
    let pb := perform_book_search env saveOk st1 session1 (normalize_book_query question)
      filters top_k
    let p2 := add_message saveOk pb.st pb.session "model" pb.answer
    (.ok ⟨pb.answer, intent, pb.sources⟩, p2.2, trE ++ pb.trace)

/-- `RAGEngine.generate_answer`: the body wrapped in the catch-all that
turns any raised exception into the fixed apology with intent ERROR
and no sources. -/
def generate_answer (env : Env) (saveOk : Bool) (st : EngineState)
    (question session_id : String) (filters : Option Filters) (top_k : Nat) :
    AnswerDict × EngineState × List PortCall :=
  match generate_answer_core env saveOk st question session_id filters top_k with
  | (.ok d, st', tr) => (d, st', tr)
  | (.error _, st', tr) => (apology_answer, st', tr)

/-!  Concrete fixtures for witnesses and counterexamples. -/

/-- A one-row catalog for concrete runs: one computing book at cosine
distance 1/10 from any query vector. -/
def rowFix : CatalogRow :=
  ⟨"id1", ⟨"isbn1", "Python Basics", "A. Author", "Máy tính", "2020"⟩, "doc text", 1 / 10⟩

/-- A concrete environment over the one-row catalog. -/
def envFix : Env :=
  { embed := fun _ => [1], ranked := fun _ => [rowFix], memNearest := fun _ => none,
    llm := fun _ => .ok (some "generated text"), countResult := .ok 1,
    allMetadata := [rowFix.meta], hashFn := fun _ => 0, now := 0 }

/-- An environment whose embedding port fails with an empty vector. -/
def envNoVec : Env :=
  { embed := fun _ => [], ranked := fun _ => [rowFix], memNearest := fun _ => none,
    llm := fun _ => .ok (some "generated text"), countResult := .ok 1,
    allMetadata := [rowFix.meta], hashFn := fun _ => 0, now := 0 }

/-- An environment like `envFix` but with no catalog metadata, so that
the filter tables stay empty. -/
def envNoMeta : Env :=
  { embed := fun _ => [1], ranked := fun _ => [rowFix], memNearest := fun _ => none,
    llm := fun _ => .ok (some "generated text"), countResult := .ok 1,
    allMetadata := [], hashFn := fun _ => 0, now := 0 }

/-- An environment whose vector-store `count()` call raises. -/
def envCountErr : Env :=
  { embed := fun _ => [1], ranked := fun _ => [rowFix], memNearest := fun _ => none,
    llm := fun _ => .ok (some "generated text"), countResult := .error "ResourceExhausted",
    allMetadata := [rowFix.meta], hashFn := fun _ => 0, now := 0 }

/-- A fresh session. -/
def sessionFix : ChatSession := ⟨"s", [], []⟩

/-- An empty engine state. -/
def engineStFix : EngineState := ⟨[], [], []⟩

/-- A category filter matching the fixture catalog row. -/
def filtersCat : Filters := { category := some "Máy tính" }

/-- A category filter matching no fixture catalog row. -/
def filtersWrong : Filters := { category := some "Văn" }

/-- A catalog row whose distance is small enough that the score rounds
up to 1. -/
def rowEps : CatalogRow :=
  ⟨"id2", ⟨"isbn2", "T", "A", "C", "2020"⟩, "d", 1 / 20000⟩

/-- Environment over the near-zero-distance row. -/
def envC4 : Env :=
  { embed := fun _ => [1], ranked := fun _ => [rowEps], memNearest := fun _ => none,
    llm := fun _ => .ok (some "generated text"), countResult := .ok 1,
    allMetadata := [rowEps.meta], hashFn := fun _ => 0, now := 0 }

/-- Two catalog rows at distances 1/4 and 1/2. -/
def rowW1 : CatalogRow := ⟨"w1", ⟨"i1", "T1", "A1", "C1", "2020"⟩, "d1", 1 / 4⟩

/-- Second row of the two-row catalog. -/
def rowW2 : CatalogRow := ⟨"w2", ⟨"i2", "T2", "A2", "C2", "2021"⟩, "d2", 1 / 2⟩

/-- Environment over the two-row catalog, ranked nearest first. -/
def envC4b : Env :=
  { embed := fun _ => [1], ranked := fun _ => [rowW1, rowW2], memNearest := fun _ => none,
    llm := fun _ => .ok (some "generated text"), countResult := .ok 2,
    allMetadata := [rowW1.meta, rowW2.meta], hashFn := fun _ => 0, now := 0 }

/-- Recogniser for cache-store events. -/
def isCacheStore : PortCall → Bool
  | .cacheStore _ => true
  | _ => false

/-!  Supporting lemmas. -/

theorem find?_map_replace {α : Type} (k : String) (v : α) (m : List (String × α))
    (h : m.any (fun p => p.1 == k) = true) :
    (m.map (fun p => if p.1 == k then (k, v) else p)).find? (fun p => p.1 == k)
      = some (k, v) := by
  induction m with
  | nil => simp at h
  | cons a m ih =>
    rw [List.map_cons]
    by_cases ha : (a.1 == k) = true
    · rw [if_pos ha]
      simp [List.find?_cons]
    · have h' : m.any (fun p => p.1 == k) = true := by
        simp only [List.any_cons, ha, Bool.false_or] at h
        exact h
      rw [if_neg ha]
      simp only [List.find?_cons]
      simp only [Bool.not_eq_true] at ha
      rw [ha]
      exact ih h'

theorem assocGet_assocSet {α : Type} (m : List (String × α)) (k : String) (v : α) :
    assocGet (assocSet m k v) k = some v := by
  unfold assocGet assocSet
  by_cases h : m.any (fun p => p.1 == k) = true
  · rw [if_pos h, find?_map_replace k v m h]
    rfl
  · rw [if_neg h, List.find?_append]
    have hnone : m.find? (fun p => p.1 == k) = none := by
      rw [List.find?_eq_none]
      intro x hx hpx
      exact h (List.any_eq_true.mpr ⟨x, hx, hpx⟩)
    rw [hnone]
    simp [List.find?_cons]

theorem find?_replace_self (mem : List QMemEntry) (e : QMemEntry)
    (h : mem.any (fun x => x.id == e.id) = true) :
    (mem.map (fun x => if x.id == e.id then e else x)).find? (fun x => x.id == e.id)
      = some e := by
  induction mem with
  | nil => simp at h
  | cons a m ih =>
    rw [List.map_cons]
    by_cases ha : (a.id == e.id) = true
    · rw [if_pos ha]
      simp [List.find?_cons]
    · have h' : m.any (fun x => x.id == e.id) = true := by
        simp only [List.any_cons, ha, Bool.false_or] at h
        exact h
      rw [if_neg ha]
      simp only [List.find?_cons]
      simp only [Bool.not_eq_true] at ha
      rw [ha]
      exact ih h'

theorem find?_qmemUpsert_self (mem : List QMemEntry) (e : QMemEntry) :
    (qmemUpsert mem e).find? (fun x => x.id == e.id) = some e := by
  unfold qmemUpsert
  by_cases h : mem.any (fun x => x.id == e.id) = true
  · rw [if_pos h]
    exact find?_replace_self mem e h
  · rw [if_neg h, List.find?_append]
    have hnone : mem.find? (fun x => x.id == e.id) = none := by
      rw [List.find?_eq_none]
      intro x hx hpx
      exact h (List.any_eq_true.mpr ⟨x, hx, hpx⟩)
    rw [hnone]
    simp [List.find?_cons]

theorem find?_replace_other (mem : List QMemEntry) (e : QMemEntry) (i : String)
    (h : i ≠ e.id) :
    (mem.map (fun x => if x.id == e.id then e else x)).find? (fun x => x.id == i)
      = mem.find? (fun x => x.id == i) := by
  induction mem with
  | nil => simp
  | cons a m ih =>
    rw [List.map_cons]
    by_cases ha : (a.id == e.id) = true
    · have haid : a.id = e.id := beq_iff_eq.mp ha
      have hai : ¬(a.id == i) = true := by
        rw [Bool.not_eq_true, beq_eq_false_iff_ne, haid]
        exact fun hcon => h hcon.symm
      have hei : ¬(e.id == i) = true := by
        rw [Bool.not_eq_true, beq_eq_false_iff_ne]
        exact fun hcon => h hcon.symm
      rw [if_pos ha]
      simp only [List.find?_cons]
      simp only [Bool.not_eq_true] at hai hei
      rw [hai, hei]
      exact ih
    · rw [if_neg ha]
      simp only [List.find?_cons]
      by_cases hai : (a.id == i) = true
      · rw [hai]
      · simp only [Bool.not_eq_true] at hai
        rw [hai]
        exact ih

theorem find?_qmemUpsert_other (mem : List QMemEntry) (e : QMemEntry) (i : String)
    (h : i ≠ e.id) :
    (qmemUpsert mem e).find? (fun x => x.id == i) = mem.find? (fun x => x.id == i) := by
  unfold qmemUpsert
  by_cases hm : mem.any (fun x => x.id == e.id) = true
  · rw [if_pos hm]
    exact find?_replace_other mem e i h
  · rw [if_neg hm, List.find?_append]
    have hei : ¬(e.id == i) = true := by
      rw [Bool.not_eq_true, beq_eq_false_iff_ne]
      exact fun hcon => h hcon.symm
    simp only [List.find?_cons]
    simp only [Bool.not_eq_true] at hei
    rw [hei]
    simp

theorem strip_length_le (l : List Char) : (strip l).length ≤ l.length := by
  unfold strip rstrip lstrip
  calc ((l.dropWhile isSpaceChar).reverse.dropWhile isSpaceChar).reverse.length
      = ((l.dropWhile isSpaceChar).reverse.dropWhile isSpaceChar).length := by
        rw [List.length_reverse]
    _ ≤ (l.dropWhile isSpaceChar).reverse.length := dropWhile_length_le _ _
    _ = (l.dropWhile isSpaceChar).length := by rw [List.length_reverse]
    _ ≤ l.length := dropWhile_length_le _ _

theorem hasSub_length {hay needle : List Char} (h : hasSub hay needle = true) :
    needle.length ≤ hay.length := by
  unfold hasSub at h
  obtain ⟨t, ht, hpre⟩ := List.any_eq_true.mp h
  have h1 : needle <+: t := List.isPrefixOf_iff_prefix.mp hpre
  have h2 : t <:+ hay := (List.mem_tails t hay).mp ht
  exact Nat.le_trans h1.length_le h2.length_le

theorem seqSub_length {hay p1 p2 : List Char} (h : seqSub hay p1 p2 = true) :
    p1.length + p2.length ≤ hay.length := by
  unfold seqSub at h
  obtain ⟨t, ht, hb⟩ := List.any_eq_true.mp h
  rw [Bool.and_eq_true] at hb
  obtain ⟨hpre, hsub⟩ := hb
  have h1 : p1 <+: t := List.isPrefixOf_iff_prefix.mp hpre
  have h2 : t <:+ hay := (List.mem_tails t hay).mp ht
  have h3 : p2.length ≤ (t.drop p1.length).length := hasSub_length hsub
  have h4 : (t.drop p1.length).length = t.length - p1.length := List.length_drop p1.length t
  have h5 : p1.length ≤ t.length := h1.length_le
  have h6 : t.length ≤ hay.length := h2.length_le
  omega

/-!  Length lemmas for very short queries (claim C5): no keyword of the
classifier tables fits in an utterance of fewer than 2 characters. -/

theorem hasSub_false_of_short {hay needle : List Char} (h : hay.length < needle.length) :
    hasSub hay needle = false := by
  cases hh : hasSub hay needle
  · rfl
  · exact absurd (hasSub_length hh) (by omega)

theorem seqSub_false_of_short {hay p1 p2 : List Char} (h : hay.length < p1.length) :
    seqSub hay p1 p2 = false := by
  cases hh : seqSub hay p1 p2
  · rfl
  · have := seqSub_length hh
    omega

theorem any_hasSub_false (ks : List String) (hay : List Char)
    (hk : ks.all (fun k => decide (2 ≤ k.data.length)) = true) (h : hay.length < 2) :
    ks.any (fun k => hasSub hay k.data) = false := by
  rw [List.any_eq_false]
  intro k hkm hcon
  have h2 : 2 ≤ k.data.length := of_decide_eq_true (List.all_eq_true.mp hk k hkm)
  have := hasSub_length hcon
  omega

theorem any_eq_keyword_false (ks : List String) (hay : List Char)
    (hk : ks.all (fun k => decide (2 ≤ k.data.length)) = true) (h : hay.length < 2) :
    ks.any (fun k => hay == k.data) = false := by
  rw [List.any_eq_false]
  intro k hkm hcon
  have h2 : 2 ≤ k.data.length := of_decide_eq_true (List.all_eq_true.mp hk k hkm)
  have he : hay = k.data := beq_iff_eq.mp hcon
  rw [he] at h
  omega

theorem any_seqSub_false (ts : List String) (hay p1 : List Char)
    (hp : 2 ≤ p1.length) (h : hay.length < 2) :
    ts.any (fun t => seqSub hay p1 t.data) = false := by
  rw [List.any_eq_false]
  intro t _ hcon
  rw [seqSub_false_of_short (show hay.length < p1.length by omega)] at hcon
  exact Bool.false_ne_true hcon

theorem pySplitGo_mem_length :
    ∀ (fuel : Nat) (l : List Char), ∀ w ∈ pySplitGo fuel l, w.length ≤ l.length := by
  intro fuel
  induction fuel with
  | zero =>
    intro l w hw
    cases l with
    | nil => simp [pySplitGo] at hw
    | cons c rest => simp [pySplitGo] at hw
  | succ n ih =>
    intro l w hw
    cases l with
    | nil => simp [pySplitGo] at hw
    | cons c rest =>
      simp only [pySplitGo] at hw
      split at hw
      · have := ih rest w hw
        simp only [List.length_cons]
        omega
      · rcases List.mem_cons.mp hw with rfl | hmem
        · have htw := (List.takeWhile_prefix (fun x => !isSpaceChar x) (l := rest)).length_le
          simp only [List.length_cons]
          omega
        · have h1 := ih (rest.dropWhile (fun x => !isSpaceChar x)) w hmem
          have h2 := dropWhile_length_le (fun x => !isSpaceChar x) rest
          simp only [List.length_cons]
          omega

theorem pySplit_mem_length (l : List Char) : ∀ w ∈ pySplit l, w.length ≤ l.length :=
  pySplitGo_mem_length l.length l

theorem keyword_word_check_short (hay : List Char) (ks : List String)
    (hk : ks.all (fun k => decide (2 ≤ k.data.length)) = true) (h : hay.length < 2) :
    keyword_word_check hay ks = false := by
  unfold keyword_word_check
  simp only []
  rw [List.any_eq_false]
  intro k hkm hcon
  have h2 : 2 ≤ k.data.length := of_decide_eq_true (List.all_eq_true.mp hk k hkm)
  split at hcon
  · obtain ⟨w, hw, hbeq⟩ := List.any_eq_true.mp hcon
    have hwl := pySplit_mem_length hay w hw
    have he : w = k.data := beq_iff_eq.mp hbeq
    rw [he] at hwl
    omega
  · have := hasSub_length hcon
    omega

theorem is_smalltalk_short (q : String) (h : q.data.length < 2) :
    is_smalltalk q = false := by
  have hql : (remove_diacritics_l (removePunct (strip (pyLowerL q.data)))).length < 2 := by
    have e1 : (remove_diacritics_l (removePunct (strip (pyLowerL q.data)))).length
        = (removePunct (strip (pyLowerL q.data))).length := List.length_map _ _
    have e2 : (removePunct (strip (pyLowerL q.data))).length
        ≤ (strip (pyLowerL q.data)).length := List.length_filter_le _ _
    have e3 := strip_length_le (pyLowerL q.data)
    have e4 : (pyLowerL q.data).length = q.data.length := List.length_map _ _
    omega
  unfold is_smalltalk
  simp only []
  rw [any_hasSub_false helpKeywords _ (by decide) hql]
  rw [any_eq_keyword_false smalltalkKeywords _ (by decide) hql]
  rw [keyword_word_check_short _ smalltalkKeywords (by decide) hql]
  simp

theorem is_library_stats_query_short (q : String) (h : q.data.length < 2) :
    is_library_stats_query q = false := by
  have hql : (remove_diacritics_l (pyLowerL q.data)).length < 2 := by
    have e1 : (remove_diacritics_l (pyLowerL q.data)).length = (pyLowerL q.data).length :=
      List.length_map _ _
    have e2 : (pyLowerL q.data).length = q.data.length := List.length_map _ _
    omega
  unfold is_library_stats_query
  simp only []
  rw [any_seqSub_false _ _ _ (by decide) hql]
  have hB : (["tong so", "so luong"].any (fun p =>
      ["sach", "cuon", "quyen", "tac pham"].any (fun t =>
        seqSub (remove_diacritics_l (pyLowerL q.data)) p.data t.data))) = false := by
    rw [List.any_eq_false]
    intro p hp hcon
    have h2 : 2 ≤ p.data.length :=
      of_decide_eq_true (List.all_eq_true.mp
        (show (["tong so", "so luong"].all (fun x => decide (2 ≤ x.data.length))) = true
          by decide) p hp)
    rw [any_seqSub_false _ _ _ h2 hql] at hcon
    exact Bool.false_ne_true hcon
  rw [hB]
  rw [seqSub_false_of_short (show (remove_diacritics_l (pyLowerL q.data)).length
      < ("co".data).length by have e : ("co".data).length = 2 := rfl; omega)]
  rw [seqSub_false_of_short (show (remove_diacritics_l (pyLowerL q.data)).length
      < ("co".data).length by have e : ("co".data).length = 2 := rfl; omega)]
  rfl

theorem is_library_info_query_short (q : String) (h : q.data.length < 2) :
    is_library_info_query q = false := by
  have hql : (remove_diacritics_l (pyLowerL q.data)).length < 2 := by
    have e1 : (remove_diacritics_l (pyLowerL q.data)).length = (pyLowerL q.data).length :=
      List.length_map _ _
    have e2 : (pyLowerL q.data).length = q.data.length := List.length_map _ _
    omega
  unfold is_library_info_query
  simp only []
  exact any_hasSub_false libraryInfoKeywords _ (by decide) hql

theorem classify_intent_short (q : String) (session : ChatSession)
    (h : q.data.length < 2) : classify_intent q session = "GARBAGE" := by
  have hq : (pyLowerL (strip q.data)).length < 2 := by
    have e1 : (pyLowerL (strip q.data)).length = (strip q.data).length := List.length_map _ _
    have e2 := strip_length_le q.data
    omega
  unfold classify_intent
  simp only []
  have hcond : (decide ((pyLowerL (strip q.data)).length < 2)
      || !((pyLowerL (strip q.data)).any isAlnumRange)) = true := by
    rw [Bool.or_eq_true]
    exact Or.inl (decide_eq_true hq)
  rw [if_pos hcond]

theorem replaceSubGo_length_le (pat rep : List Char) (hrep : rep.length ≤ pat.length) :
    ∀ (fuel : Nat) (l : List Char), (replaceSubGo pat rep fuel l).length ≤ l.length := by
  intro fuel
  induction fuel with
  | zero =>
    intro l
    cases l with
    | nil => simp [replaceSubGo]
    | cons c rest => simp [replaceSubGo]
  | succ n ih =>
    intro l
    cases l with
    | nil => simp [replaceSubGo]
    | cons c rest =>
      simp only [replaceSubGo]
      split
      · rename_i hcond
        rw [Bool.and_eq_true] at hcond
        obtain ⟨hne, hpre⟩ := hcond
        have hne' : pat ≠ [] := of_decide_eq_true hne
        have hplen : 0 < pat.length := List.length_pos.mpr hne'
        have hple : pat.length ≤ (c :: rest).length :=
          (List.isPrefixOf_iff_prefix.mp hpre).length_le
        rw [List.length_append]
        have h1 := ih ((c :: rest).drop pat.length)
        rw [List.length_drop] at h1
        simp only [List.length_cons] at *
        omega
      · simp only [List.length_cons]
        exact Nat.succ_le_succ (ih rest)

theorem replaceSub_length_le (pat rep : List Char) (hrep : rep.length ≤ pat.length)
    (l : List Char) : (replaceSub pat rep l).length ≤ l.length :=
  replaceSubGo_length_le pat rep hrep l.length l

theorem apply_replacements_length_le :
    ∀ (prs : List (String × String)),
      prs.all (fun p => decide (p.2.data.length ≤ p.1.data.length)) = true →
      ∀ l : List Char, (apply_replacements prs l).length ≤ l.length := by
  intro prs
  induction prs with
  | nil =>
    intro _ l
    simp [apply_replacements]
  | cons p ps ih =>
    intro hp l
    rw [List.all_cons, Bool.and_eq_true] at hp
    obtain ⟨hp1, hps⟩ := hp
    have h1 : (replaceSub p.1.data p.2.data l).length ≤ l.length :=
      replaceSub_length_le _ _ (of_decide_eq_true hp1) l
    have h2 := ih hps (replaceSub p.1.data p.2.data l)
    unfold apply_replacements at h2 ⊢
    rw [List.foldl_cons]
    exact le_trans h2 h1

theorem collapseWsGo_length_le :
    ∀ (fuel : Nat) (l : List Char), (collapseWsGo fuel l).length ≤ l.length := by
  intro fuel
  induction fuel with
  | zero =>
    intro l
    cases l with
    | nil => simp [collapseWsGo]
    | cons c rest => simp [collapseWsGo]
  | succ n ih =>
    intro l
    cases l with
    | nil => simp [collapseWsGo]
    | cons c rest =>
      simp only [collapseWsGo]
      split
      · simp only [List.length_cons]
        have h1 := ih (rest.dropWhile isSpaceChar)
        have h2 := dropWhile_length_le isSpaceChar rest
        omega
      · simp only [List.length_cons]
        exact Nat.succ_le_succ (ih rest)

theorem collapseWs_length_le (l : List Char) : (collapseWs l).length ≤ l.length :=
  collapseWsGo_length_le l.length l

theorem normalize_query_length_le (q : String) :
    (normalize_query q).data.length ≤ q.data.length := by
  unfold normalize_query
  simp only []
  show (strip (collapseWs (apply_replacements synonymMap
      (apply_replacements (noiseWords.map (fun n => (n, "")))
        (pyLowerL (strip q.data)))))).length ≤ q.data.length
  have e0 : (pyLowerL (strip q.data)).length = (strip q.data).length := List.length_map _ _
  have e1 := strip_length_le q.data
  have h1 := apply_replacements_length_le (noiseWords.map (fun n => (n, ""))) (by decide)
    (pyLowerL (strip q.data))
  have h2 := apply_replacements_length_le synonymMap (by decide)
    (apply_replacements (noiseWords.map (fun n => (n, ""))) (pyLowerL (strip q.data)))
  have h3 := collapseWs_length_le (apply_replacements synonymMap
    (apply_replacements (noiseWords.map (fun n => (n, ""))) (pyLowerL (strip q.data))))
  have h4 := strip_length_le (collapseWs (apply_replacements synonymMap
    (apply_replacements (noiseWords.map (fun n => (n, ""))) (pyLowerL (strip q.data)))))
  omega

/-!  Claim theorems. -/

/-- Claim C9: appending a message to a session and reloading the
session from persisted storage (via the write-through
`add_message`/`save` and the `load` used by `get_session`) yields the
same history, with the appended message at the position it had when
appended, namely the old history length — assuming the persistence
write succeeds (`ok = true`). -/
theorem c9_session_roundtrip (files : List (String × SessionData)) (s : ChatSession)
    (role text : String) :
    (chat_session_load (chat_add_message true files s role text).2
        ⟨s.session_id, [], []⟩).history
      = (chat_add_message true files s role text).1.history
    ∧ (chat_session_load (chat_add_message true files s role text).2
        ⟨s.session_id, [], []⟩).history[s.history.length]?
      = some ⟨role, text⟩
    ∧ (chat_add_message true files s role text).1.history[s.history.length]?
      = some ⟨role, text⟩ := by
  have hload :
      chat_session_load (chat_add_message true files s role text).2 ⟨s.session_id, [], []⟩
        = ⟨s.session_id, s.history ++ [⟨role, text⟩], s.last_search_results⟩ := by
    show chat_session_load
      (assocSet files s.session_id
        ⟨s.history ++ [⟨role, text⟩], s.last_search_results⟩) ⟨s.session_id, [], []⟩ = _
    unfold chat_session_load
    rw [assocGet_assocSet]
  refine ⟨?_, ?_, ?_⟩
  · rw [hload]
    rfl
  · rw [hload]
    exact List.getElem?_concat_length s.history ⟨role, text⟩
  · exact List.getElem?_concat_length s.history ⟨role, text⟩

/-- Claim C7 (counterexample): storing twice under the same query
string produces the same id `q_{hash(query)}`, and the ChromaDB
`upsert` then replaces the earlier entry in place — the memory still
has one entry, whose answer document is the second one. -/
theorem c7_counterexample :
    (add_query_memory (fun _ => 0) 0 [] "q" [1] "A1" "t1").map QMemEntry.document = ["A1"]
    ∧ (add_query_memory (fun _ => 0) 1
        (add_query_memory (fun _ => 0) 0 [] "q" [1] "A1" "t1") "q" [2] "A2" "t2").map
        QMemEntry.document = ["A2"] := by
  constructor
  · rfl
  · rfl

/-- Claim C7 (amended): a later store leaves the earlier store's entry
in place and unchanged whenever the two stores' cache ids (the query
hashes) differ; a store whose id collides with an existing entry —
in particular a repeated query string — replaces that entry in place. -/
theorem c7_store_coexistence (hashFn : String → Int) (now1 now2 : ℚ)
    (mem : List QMemEntry) (q1 q2 : String) (v1 v2 : List ℚ) (a1 a2 t1 t2 : String)
    (hne : qmemId hashFn q1 ≠ qmemId hashFn q2) :
    (add_query_memory hashFn now2 (add_query_memory hashFn now1 mem q1 v1 a1 t1)
        q2 v2 a2 t2).find? (fun e => e.id == qmemId hashFn q1)
      = some ⟨qmemId hashFn q1, q1, v1, a1, t1, now1⟩ := by
  unfold add_query_memory
  rw [find?_qmemUpsert_other _ _ _ hne]
  exact find?_qmemUpsert_self mem ⟨qmemId hashFn q1, q1, v1, a1, t1, now1⟩

/-- Witness for C7's amended theorem at a concrete hash function and
two queries with different hashes. -/
theorem c7_store_coexistence_witness :
    (add_query_memory (fun s => Int.ofNat s.length) 1
        (add_query_memory (fun s => Int.ofNat s.length) 0 [] "a" [1] "A1" "t1")
        "bb" [2] "A2" "t2").find?
        (fun e => e.id == qmemId (fun s => Int.ofNat s.length) "a")
      = some ⟨qmemId (fun s => Int.ofNat s.length) "a", "a", [1], "A1", "t1", 0⟩ :=
  c7_store_coexistence (fun s => Int.ofNat s.length) 0 1 [] "a" "bb" [1] [2]
    "A1" "A2" "t1" "t2" (by decide)

/-- When every attempt fails with a rate-limit error, the retry loop
of `generate_content` raises after exactly the number of attempts
needed to exhaust every key of every remaining model, provided enough
fuel remains. -/
theorem generate_content_go_rate_limit (k m : Nat) (oracle : Nat → Attempt)
    (hk : 1 ≤ k) (horacle : ∀ i, oracle i = .failure false true) :
    ∀ fuel keyIdx modelIdx used, keyIdx < k → modelIdx < m →
      (k - keyIdx) + k * (m - 1 - modelIdx) ≤ fuel →
      generate_content_go k m oracle fuel used keyIdx modelIdx
        = (.raised, used + ((k - keyIdx) + k * (m - 1 - modelIdx))) := by
  intro fuel
  induction fuel with
  | zero =>
    intro keyIdx modelIdx used hkey _ hfuel
    exfalso
    have h1 : 1 ≤ k - keyIdx := by omega
    have h2 : (k - keyIdx) + k * (m - 1 - modelIdx) = 0 := Nat.le_zero.mp hfuel
    omega
  | succ fuel ih =>
    intro keyIdx modelIdx used hkey hmod hfuel
    rw [generate_content_go, horacle used]
    simp only [Bool.false_eq_true, if_false]
    by_cases hlt : keyIdx + 1 < k
    · have hmodk : (keyIdx + 1) % k = keyIdx + 1 := Nat.mod_eq_of_lt hlt
      have hfuel' : (k - (keyIdx + 1)) + k * (m - 1 - modelIdx) ≤ fuel := by
        generalize k * (m - 1 - modelIdx) = X at hfuel ⊢
        omega
      rw [if_pos (by trivial), hmodk, if_pos (by omega)]
      rw [ih (keyIdx + 1) modelIdx (used + 1) hlt hmod hfuel']
      have harith : used + 1 + ((k - (keyIdx + 1)) + k * (m - 1 - modelIdx))
          = used + ((k - keyIdx) + k * (m - 1 - modelIdx)) := by
        generalize k * (m - 1 - modelIdx) = X
        omega
      rw [harith]
    · have hkk : keyIdx + 1 = k := by omega
      have hmodk : (keyIdx + 1) % k = 0 := by rw [hkk]; exact Nat.mod_self k
      rw [if_pos (by trivial), hmodk]
      rw [if_neg (by simp)]
      by_cases hm2 : modelIdx + 1 < m
      · have hmul : k * (m - 1 - modelIdx) = k * (m - 1 - (modelIdx + 1)) + k := by
          have hsplit : m - 1 - modelIdx = (m - 1 - (modelIdx + 1)) + 1 := by omega
          rw [hsplit, Nat.mul_succ]
        have hfuel' : (k - 0) + k * (m - 1 - (modelIdx + 1)) ≤ fuel := by
          rw [hmul] at hfuel
          generalize k * (m - 1 - (modelIdx + 1)) = X at hfuel ⊢
          omega
        rw [if_pos hm2]
        rw [ih 0 (modelIdx + 1) (used + 1) (by omega) hm2 hfuel']
        have harith : used + 1 + ((k - 0) + k * (m - 1 - (modelIdx + 1)))
            = used + ((k - keyIdx) + k * (m - 1 - modelIdx)) := by
          rw [hmul]
          generalize k * (m - 1 - (modelIdx + 1)) = X
          omega
        rw [harith]
      · have h1 : k - keyIdx = 1 := by omega
        have h2 : m - 1 - modelIdx = 0 := by omega
        rw [if_neg hm2, h1, h2, Nat.mul_zero]

/-- Claim C3: with `k` API keys and `m` models all failing with
rate-limit errors on every attempt, `generate_content` performs
exactly `k * m` attempts — within its `k * m * 2` attempt budget — and
then re-raises the error rather than looping forever. -/
theorem c3_rotation_bound (k m : Nat) (oracle : Nat → Attempt)
    (hk : 1 ≤ k) (hm : 1 ≤ m)
    (horacle : ∀ i, oracle i = .failure false true) :
    generate_content k m oracle = (.raised, k * m) ∧ k * m ≤ k * m * 2 := by
  have hid : (k - 0) + k * (m - 1 - 0) = k * m := by
    obtain ⟨m', rfl⟩ : ∃ m', m = m' + 1 := ⟨m - 1, by omega⟩
    rw [Nat.mul_succ]
    simp
    omega
  have hbound : k * m ≤ k * m * 2 := by
    rw [Nat.mul_two]
    exact Nat.le_add_right _ _
  constructor
  · unfold generate_content
    rw [generate_content_go_rate_limit k m oracle hk horacle (k * m * 2) 0 0 0
      (by omega) (by omega) (by rw [hid]; exact hbound)]
    rw [hid, Nat.zero_add]
  · exact hbound

/-- Witness for C3 at two keys and two models: the raise happens after
4 of the 8 budgeted attempts. -/
theorem c3_rotation_bound_witness :
    generate_content 2 2 (fun _ => .failure false true) = (.raised, 2 * 2)
    ∧ 2 * 2 ≤ 2 * 2 * 2 :=
  c3_rotation_bound 2 2 (fun _ => .failure false true) (by omega) (by omega) (fun _ => rfl)

/-- Claim C10: `SearchEngine.search` is total on degenerate inputs.
For a whitespace-only (or empty) query it returns the empty list
having made no port call at all — in particular the vector store is
never queried; when the embedding port returns an empty/absent vector
it returns the empty list and the vector store is never queried. -/
theorem c10_search_degenerate (env : Env) (q : String) (filters : Option Filters)
    (top_k : Nat) :
    (strip q.data = [] → search env q filters top_k = ([], []))
    ∧ (env.embed q = [] →
        (search env q filters top_k).1 = []
        ∧ ∀ e ∈ (search env q filters top_k).2, ∀ n w, e ≠ PortCall.vectorQuery n w) := by
  constructor
  · intro hq
    unfold search
    rw [if_pos hq]
  · intro hv
    have hvec : embedText env q = [] := by
      unfold embedText
      by_cases hqe : q.isEmpty = true
      · rw [if_pos hqe]
      · rw [if_neg hqe]
        exact hv
    unfold search
    by_cases hq : strip q.data = []
    · rw [if_pos hq]
      exact ⟨rfl, by intro e he; simp at he⟩
    · rw [if_neg hq]
      simp only [hvec, if_pos rfl]
      refine ⟨rfl, ?_⟩
      intro e he n w
      simp at he
      rw [he]
      simp

/-- Witness for C10: a whitespace-only query returns the empty result
with an empty trace, and a query whose embedding comes back empty
returns the empty result. -/
theorem c10_search_degenerate_witness :
    search envFix "  " none 5 = ([], [])
    ∧ (search envNoVec "hello" none 5).1 = [] :=
  ⟨(c10_search_degenerate envFix "  " none 5).1 (by decide),
   ((c10_search_degenerate envNoVec "hello" none 5).2 rfl).1⟩

/-!  Trace lemmas for claim C2: the cache-lookup port is never touched
by `search` or by the post-cache stage of `_perform_book_search`. -/

theorem search_trace_shape (env : Env) (q : String) (filters : Option Filters) (top_k : Nat) :
    ∀ e ∈ (search env q filters top_k).2,
      (∃ t, e = PortCall.embedCall t) ∨ ∃ n w, e = PortCall.vectorQuery n w := by
  intro e he
  unfold search at he
  simp only [] at he
  split at he
  · simp at he
  · split at he
    · simp at he
      subst he
      exact Or.inl ⟨q, rfl⟩
    · split at he
      · split at he
        · simp at he
          rcases he with h | h | h <;> subst h
          · exact Or.inl ⟨q, rfl⟩
          · exact Or.inr ⟨_, _, rfl⟩
          · exact Or.inr ⟨_, _, rfl⟩
        · simp at he
          rcases he with h | h <;> subst h
          · exact Or.inl ⟨q, rfl⟩
          · exact Or.inr ⟨_, _, rfl⟩
      · simp at he
        rcases he with h | h <;> subst h
        · exact Or.inl ⟨q, rfl⟩
        · exact Or.inr ⟨_, _, rfl⟩

theorem raw_docs_trace_no_cacheq (env : Env) (sq : String) (filters : Option Filters)
    (limit : Nat) :
    ∀ e ∈ (book_search_raw_docs env sq filters limit).2, e ≠ PortCall.cacheQuery := by
  intro e he
  unfold book_search_raw_docs at he
  simp only [] at he
  split at he
  · rw [List.mem_append] at he
    rcases he with h | h
    · rcases search_trace_shape env sq filters limit e h with ⟨t, rfl⟩ | ⟨n, w, rfl⟩ <;> simp
    · rcases search_trace_shape env sq none limit e h with ⟨t, rfl⟩ | ⟨n, w, rfl⟩ <;> simp
  · rcases search_trace_shape env sq filters limit e he with ⟨t, rfl⟩ | ⟨n, w, rfl⟩ <;> simp

theorem mem_append_no_cacheq {A B : List PortCall}
    (hA : ∀ e ∈ A, e ≠ PortCall.cacheQuery) (hB : ∀ e ∈ B, e ≠ PortCall.cacheQuery) :
    ∀ e ∈ A ++ B, e ≠ PortCall.cacheQuery := by
  intro e he
  rcases List.mem_append.mp he with h | h
  · exact hA e h
  · exact hB e h

theorem call_gemini_no_cacheq (env : Env) (prompt : String) :
    ∀ e ∈ (call_gemini env prompt).2, e ≠ PortCall.cacheQuery := by
  intro e he
  rcases List.mem_singleton.mp he with rfl
  simp

theorem gemini_fallback_no_cacheq (env : Env) (q : String) (s : ChatSession) :
    ∀ e ∈ (gemini_fallback env q s).2, e ≠ PortCall.cacheQuery := by
  intro e he
  rcases List.mem_singleton.mp he with rfl
  simp

theorem singleton_store_no_cacheq (i : String) :
    ∀ e ∈ [PortCall.cacheStore i], e ≠ PortCall.cacheQuery := by
  intro e he
  rcases List.mem_singleton.mp he with rfl
  simp

theorem pbs_main_trace_no_cacheq (env : Env) (saveOk : Bool) (st : EngineState)
    (session : ChatSession) (question : String) (filters : Option Filters) (top_k : Nat)
    (sq : String) (q_vec : List ℚ) (tr : List PortCall)
    (htr : ∀ e ∈ tr, e ≠ PortCall.cacheQuery)
    (hraw : ∀ e ∈ (book_search_raw_docs env sq filters (top_k * SEARCH_EXPAND_FACTOR)).2,
      e ≠ PortCall.cacheQuery) :
    ∀ e ∈ (perform_book_search_main env saveOk st session question filters
        top_k sq q_vec tr).trace, e ≠ PortCall.cacheQuery := by
  intro e he
  unfold perform_book_search_main at he
  simp only [] at he
  repeat' split at he
  all_goals
    first
    | exact mem_append_no_cacheq htr hraw e he
    | exact mem_append_no_cacheq (mem_append_no_cacheq htr hraw)
        (gemini_fallback_no_cacheq env question session) e he
    | exact mem_append_no_cacheq (mem_append_no_cacheq htr hraw)
        (singleton_store_no_cacheq _) e he
    | exact mem_append_no_cacheq (mem_append_no_cacheq htr hraw)
        (call_gemini_no_cacheq env _) e he
    | exact mem_append_no_cacheq (mem_append_no_cacheq (mem_append_no_cacheq htr hraw)
        (call_gemini_no_cacheq env _)) (singleton_store_no_cacheq _) e he

/-- Claim C2 (amended): for every query that carries explicit (truthy)
filters, the semantic-cache lookup is bypassed — no cache-lookup port
call appears anywhere in the trace of `_perform_book_search`.  (The
store half of the original claim is false: see `c2_counterexample`;
the answer produced on a filtered turn is still written to the cache
whenever the embedding is non-empty and a list answer is produced.) -/
theorem c2_cache_bypass (env : Env) (saveOk : Bool) (st : EngineState)
    (session : ChatSession) (question : String) (filters : Option Filters) (top_k : Nat)
    (hf : filtersTruthy filters = true) :
    ∀ e ∈ (perform_book_search env saveOk st session question filters top_k).trace,
      e ≠ PortCall.cacheQuery := by
  intro e he
  unfold perform_book_search at he
  simp only [hf, Bool.not_true, Bool.and_false, if_false, List.append_nil] at he
  exact pbs_main_trace_no_cacheq env saveOk st session question filters top_k
    (enrich_query_context question) (embedText env (enrich_query_context question))
    [PortCall.embedCall (enrich_query_context question)]
    (fun e' he' => by
      rcases List.mem_singleton.mp he' with rfl
      simp)
    (raw_docs_trace_no_cacheq env (enrich_query_context question) filters
      (top_k * SEARCH_EXPAND_FACTOR)) e he

/-- Claim C2 (counterexample to the original claim): on a concrete
filtered book search that succeeds, no cache lookup happens but a
cache entry IS stored for the answer of the turn — the trace contains
a cache-store event and the query memory is no longer empty. -/
theorem c2_counterexample :
    filtersTruthy (some filtersCat) = true
    ∧ ((perform_book_search envFix true engineStFix sessionFix "sach python"
        (some filtersCat) 5).trace.any isCacheStore) = true
    ∧ (perform_book_search envFix true engineStFix sessionFix "sach python"
        (some filtersCat) 5).st.qmem ≠ [] := by
  refine ⟨rfl, by decide, by decide⟩

/-- Witness for C2's amended theorem at a concrete filtered search. -/
theorem c2_cache_bypass_witness :
    ((perform_book_search envFix true engineStFix sessionFix "sach python"
        (some filtersCat) 5).trace.all (fun e => e != PortCall.cacheQuery)) = true :=
  List.all_eq_true.mpr (fun e he => bne_iff_ne.mpr
    (c2_cache_bypass envFix true engineStFix sessionFix "sach python"
      (some filtersCat) 5 (by decide) e he))

/-- Claim C1 (counterexample to the original claim): the utterance
"hello tim sach python" matches a smalltalk pattern (the whole word
"hello") and contains catalog-search vocabulary ("tim", "sach"), yet
the classifier returns SMALLTALK: the guard of `is_smalltalk` only
rejects a match when a HELP keyword is present alongside the book
vocabulary, not for every smalltalk pattern. -/
theorem c1_counterexample :
    bookContextKeywords.any (fun k =>
      hasSub (remove_diacritics_l (removePunct (strip (pyLowerL
        "hello tim sach python".data)))) k.data) = true
    ∧ is_smalltalk "hello tim sach python" = true
    ∧ classify_intent "hello tim sach python" ⟨"s", [], []⟩ = "SMALLTALK" := by
  refine ⟨by decide, by decide, by decide⟩

/-- Claim C1 (amended): the smalltalk guard rejects a match exactly
when a help keyword AND catalog-search vocabulary are both present in
the normalised utterance; in that case `is_smalltalk` is false and the
classifier never returns SMALLTALK.  (For smalltalk matches that carry
book vocabulary without a help keyword the guard does not fire:
`c1_counterexample`.) -/
theorem c1_smalltalk_guard (q : String) (session : ChatSession)
    (hh : helpKeywords.any (fun k =>
      hasSub (remove_diacritics_l (removePunct (strip (pyLowerL q.data)))) k.data) = true)
    (hb : bookContextKeywords.any (fun k =>
      hasSub (remove_diacritics_l (removePunct (strip (pyLowerL q.data)))) k.data) = true) :
    is_smalltalk q = false ∧ classify_intent q session ≠ "SMALLTALK" := by
  have hsm : is_smalltalk q = false := by
    unfold is_smalltalk
    simp only [] at *
    rw [hh, hb]
    simp
  refine ⟨hsm, ?_⟩
  unfold classify_intent
  simp only []
  split_ifs with h1 h2 h3 h4 h5
  · decide
  · decide
  · rw [hsm] at h3
    exact absurd h3 (by decide)
  · decide
  · decide
  · decide
  · decide

/-- Witness for C1's amended theorem: a help request that mentions
books is not smalltalk and is not classified SMALLTALK. -/
theorem c1_smalltalk_guard_witness :
    is_smalltalk "giup toi tim sach python" = false
    ∧ classify_intent "giup toi tim sach python" ⟨"s", [], []⟩ ≠ "SMALLTALK" :=
  c1_smalltalk_guard "giup toi tim sach python" ⟨"s", [], []⟩ (by decide) (by decide)

/-- When the ChromaDB-level equality filter matches no row of the
ranking and no in-process partial-match filter is active, the filtered
search returns the empty list. -/
theorem search_filtered_nil (env : Env) (sq : String) (filters : Option Filters) (limit : Nat)
    (hpf : pythonActive (python_filters_of filters) = false)
    (hw : ∀ row ∈ env.ranked (embedText env sq),
      matchesWhere (where_of filters) row.meta = false) :
    (search env sq filters limit).1 = [] := by
  unfold search
  simp only []
  split
  · rfl
  · split
    · rfl
    · have hfil : (env.ranked (embedText env sq)).filter
          (fun r => matchesWhere (where_of filters) r.meta) = [] :=
        List.filter_eq_nil_iff.mpr (fun r hr => by rw [hw r hr]; decide)
      simp [hpf, query_vectors, hfil, format_search_results]

/-- Claim C6: an equality-filtered search that matches zero catalog
items, over a non-empty catalog, triggers Fallback B — the book-search
stage retries once without filters (the trace is the filtered search's
trace followed by the unfiltered one's), and its result set equals the
result of the same search with the filter removed. -/
theorem c6_fallback_relaxed (env : Env) (sq : String) (filters : Option Filters) (limit : Nat)
    (_hne : env.ranked (embedText env sq) ≠ [])
    (hf : filtersTruthy filters = true)
    (hpf : pythonActive (python_filters_of filters) = false)
    (hw : ∀ row ∈ env.ranked (embedText env sq),
      matchesWhere (where_of filters) row.meta = false) :
    (book_search_raw_docs env sq filters limit).1 = (search env sq none limit).1
    ∧ (book_search_raw_docs env sq filters limit).2
      = (search env sq filters limit).2 ++ (search env sq none limit).2 := by
  unfold book_search_raw_docs
  simp only []
  rw [if_pos ⟨search_filtered_nil env sq filters limit hpf hw, hf⟩]
  exact ⟨rfl, rfl⟩

/-- Witness for C6 at a concrete catalog: a category filter matching
no row falls back to the unfiltered result set. -/
theorem c6_fallback_relaxed_witness :
    (book_search_raw_docs envFix "sach toan" (some filtersWrong) 10).1
      = (search envFix "sach toan" none 10).1 :=
  (c6_fallback_relaxed envFix "sach toan" (some filtersWrong) 10
    (by decide) (by decide) (by decide) (by decide)).1

/-- Claim C8: `generate_answer` never propagates an exception — on any
run whose wrapped body raises, the caller receives the fixed apology
answer, whose intent is ERROR and whose sources list is empty. -/
theorem c8_catch_all (env : Env) (saveOk : Bool) (st : EngineState)
    (question session_id : String) (filters : Option Filters) (top_k : Nat)
    (herr : (generate_answer_core env saveOk st question session_id
      filters top_k).1.isOk = false) :
    (generate_answer env saveOk st question session_id filters top_k).1 = apology_answer
    ∧ (generate_answer env saveOk st question session_id filters top_k).1.intent = "ERROR"
    ∧ (generate_answer env saveOk st question session_id filters top_k).1.sources = [] := by
  unfold generate_answer
  rcases hcore : generate_answer_core env saveOk st question session_id filters top_k
    with ⟨res, st2, tr⟩
  cases res with
  | ok d =>
    rw [hcore] at herr
    simp [Except.isOk, Except.toBool] at herr
  | error e =>
    exact ⟨rfl, rfl, rfl⟩

/-- Witness for C8: with a vector store whose `count()` raises, a
statistics question makes the body raise and the caller still receives
the apology. -/
theorem c8_catch_all_witness :
    (generate_answer envCountErr true engineStFix "bao nhieu sach" "s" none 5).1
      = apology_answer
    ∧ (generate_answer envCountErr true engineStFix "bao nhieu sach" "s" none 5).1.intent
      = "ERROR"
    ∧ (generate_answer envCountErr true engineStFix "bao nhieu sach" "s" none 5).1.sources
      = [] :=
  c8_catch_all envCountErr true engineStFix "bao nhieu sach" "s" none 5 (by decide)

/-!  Rounding lemmas for claim C4. -/

theorem le_roundHalfEven (x : ℚ) : ⌊x⌋ ≤ roundHalfEven x := by
  unfold roundHalfEven
  split_ifs <;> omega

theorem roundHalfEven_le (x : ℚ) : roundHalfEven x ≤ ⌊x⌋ + 1 := by
  unfold roundHalfEven
  split_ifs <;> omega

theorem roundHalfEven_mono {x y : ℚ} (h : x ≤ y) :
    roundHalfEven x ≤ roundHalfEven y := by
  rcases lt_or_eq_of_le (Int.floor_le_floor h) with hf | hf
  · calc roundHalfEven x ≤ ⌊x⌋ + 1 := roundHalfEven_le x
      _ ≤ ⌊y⌋ := by omega
      _ ≤ roundHalfEven y := le_roundHalfEven y
  · unfold roundHalfEven
    rw [hf]
    split_ifs <;> first | omega | linarith

theorem round4_mono {x y : ℚ} (h : x ≤ y) : round4 x ≤ round4 y := by
  unfold round4
  have h1 : roundHalfEven (x * 10000) ≤ roundHalfEven (y * 10000) :=
    roundHalfEven_mono (by linarith)
  have h2 : ((roundHalfEven (x * 10000) : ℤ) : ℚ) ≤ ((roundHalfEven (y * 10000) : ℤ) : ℚ) := by
    exact_mod_cast h1
  exact (div_le_div_iff_of_pos_right (by norm_num)).mpr h2

theorem round4_zero : round4 0 = 0 := by decide

theorem round4_one : round4 1 = 1 := by decide

/-- Every result list of `search` is a sublist of the ranking's image
under the result formatter, in order. -/
theorem search_sublist (env : Env) (q : String) (filters : Option Filters) (top_k : Nat) :
    (search env q filters top_k).1.Sublist ((env.ranked (embedText env q)).map mkBook) := by
  unfold search
  simp only []
  split
  · exact List.nil_sublist _
  · split
    · exact List.nil_sublist _
    · have base : ∀ n, (format_search_results
          (query_vectors env (embedText env q) n (where_of filters))).Sublist
          ((env.ranked (embedText env q)).map mkBook) := by
        intro n
        unfold format_search_results query_vectors
        exact ((List.take_sublist _ _).trans (List.filter_sublist _)).map mkBook
      split
      · split
        · exact (List.take_sublist _ _).trans ((List.filter_sublist _).trans (base _))
        · exact (List.take_sublist _ _).trans ((List.filter_sublist _).trans (base _))
      · exact (List.take_sublist _ _).trans (base _)

/-- Claim C4 (counterexample to "score = 1 - distance"): over a row at
distance 1/20000 the returned score is exactly 1 (Python rounds the
similarity to 4 decimal places), while 1 - distance is 19999/20000. -/
theorem c4_counterexample :
    ((search envC4 "q" none 5).1.map Book.score) = [1]
    ∧ ((envC4.ranked (embedText envC4 "q")).map (fun r => 1 - r.distance)) = [19999 / 20000]
    ∧ (1 : ℚ) ≠ 19999 / 20000 := by
  refine ⟨by decide, by decide, by decide⟩

/-- Claim C4 (amended): every Book returned by `search` comes from a
ranked row and has score `round(1 - distance, 4)` — the similarity
rounded to four decimal places, not `1 - distance` exactly; when the
store's distances lie in [0,1] every score lies in [0,1], and when the
store ranks by ascending distance the returned list is ordered
best-first (scores descending). -/
theorem c4_scores (env : Env) (q : String) (filters : Option Filters) (top_k : Nat)
    (hb : ∀ r ∈ env.ranked (embedText env q), 0 ≤ r.distance ∧ r.distance ≤ 1)
    (hs : (env.ranked (embedText env q)).Pairwise (fun a b => a.distance ≤ b.distance)) :
    (∀ b ∈ (search env q filters top_k).1,
      ∃ r ∈ env.ranked (embedText env q),
        b = mkBook r ∧ b.score = round4 (1 - r.distance) ∧ 0 ≤ b.score ∧ b.score ≤ 1)
    ∧ (search env q filters top_k).1.Pairwise (fun a b => b.score ≤ a.score) := by
  constructor
  · intro b hbm
    have hmem := (search_sublist env q filters top_k).subset hbm
    rw [List.mem_map] at hmem
    obtain ⟨r, hr, rfl⟩ := hmem
    have h01 := hb r hr
    have hlo : round4 0 ≤ round4 (1 - r.distance) := round4_mono (by linarith [h01.2])
    have hhi : round4 (1 - r.distance) ≤ round4 1 := round4_mono (by linarith [h01.1])
    rw [round4_zero] at hlo
    rw [round4_one] at hhi
    exact ⟨r, hr, rfl, rfl, hlo, hhi⟩
  · refine List.Pairwise.sublist (search_sublist env q filters top_k) ?_
    refine List.Pairwise.map mkBook (fun a b hab => ?_) hs
    exact round4_mono (by linarith)

/-- Witness for C4's amended theorem over the two-row catalog. -/
theorem c4_scores_witness :
    0 ≤ (mkBook rowW1).score ∧ (mkBook rowW1).score ≤ 1 :=
  match (c4_scores envC4b "q" none 5 (by decide) (by decide)).1 (mkBook rowW1) (by decide) with
  | ⟨_, _, _, _, h0, h1⟩ => ⟨h0, h1⟩

/-- Claim C5 (counterexample to the original claim): the classifier's
garbage check is the hardcoded `len(q) < 2`, not the configured
`MIN_QUERY_LENGTH = 3` — "hi" is below the configured minimum yet is
classified SMALLTALK, and the two-character utterance "ed" is below
the configured minimum yet `generate_answer` on it calls external
ports (its trace is non-empty). -/
theorem c5_counterexample :
    ("hi".data.length < MIN_QUERY_LENGTH
      ∧ classify_intent "hi" ⟨"s", [], []⟩ = "SMALLTALK")
    ∧ ("ed".data.length < MIN_QUERY_LENGTH
      ∧ (generate_answer envNoMeta true engineStFix "ed" "s" none 5).2.2 ≠ []) := by
  refine ⟨⟨by decide, by decide⟩, by decide, by decide⟩

/-- Claim C5 (amended): the garbage threshold that the code enforces is
the hardcoded 2 of `classify_intent`, not `MIN_QUERY_LENGTH`: every
utterance of fewer than 2 characters is classified GARBAGE, and
`generate_answer` on it answers with intent GARBAGE while making no
call to any external port (its trace is empty). -/
theorem c5_short_garbage (env : Env) (saveOk : Bool) (st : EngineState)
    (q session_id : String) (filters : Option Filters) (top_k : Nat) (session : ChatSession)
    (hlen : q.data.length < 2) :
    classify_intent q session = "GARBAGE"
    ∧ (generate_answer env saveOk st q session_id filters top_k).1.intent = "GARBAGE"
    ∧ (generate_answer env saveOk st q session_id filters top_k).2.2 = [] := by
  have hnq : (normalize_query q).data.length < 2 :=
    lt_of_le_of_lt (normalize_query_length_le q) hlen
  have h1 : (generate_answer_core env saveOk st q session_id filters top_k).1
      = .ok ⟨"Câu hỏi không hợp lệ hoặc quá ngắn.", "GARBAGE", []⟩ := by
    unfold generate_answer_core
    simp only []
    rw [is_smalltalk_short q hlen, is_library_stats_query_short q hlen,
        is_library_info_query_short q hlen,
        classify_intent_short (normalize_query q) _ hnq]
    simp
  have h3 : (generate_answer_core env saveOk st q session_id filters top_k).2.2 = [] := by
    unfold generate_answer_core
    simp only []
    rw [is_smalltalk_short q hlen, is_library_stats_query_short q hlen,
        is_library_info_query_short q hlen,
        classify_intent_short (normalize_query q) _ hnq]
    simp
  rcases hgc : generate_answer_core env saveOk st q session_id filters top_k
    with ⟨res, st2, tr⟩
  rw [hgc] at h1 h3
  simp only [] at h1 h3
  subst h1
  subst h3
  refine ⟨classify_intent_short q session hlen, ?_, ?_⟩
  · unfold generate_answer
    rw [hgc]
  · unfold generate_answer
    rw [hgc]

/-- Witness for C5's amended theorem at the one-character utterance. -/
theorem c5_short_garbage_witness :
    classify_intent "a" ⟨"s", [], []⟩ = "GARBAGE"
    ∧ (generate_answer envFix true engineStFix "a" "s" none 5).1.intent = "GARBAGE"
    ∧ (generate_answer envFix true engineStFix "a" "s" none 5).2.2 = [] :=
  c5_short_garbage envFix true engineStFix "a" "s" none 5 ⟨"s", [], []⟩ (by decide)

end LibraryAI
